import Mathlib

/-!
# Provider control plane: reconciler and supervisor

A shallow embedding of `cluster/kube/apply.go` (the get / create / update
appliers) and of `service.go` (the supervisor: `NewService`, `Status`,
`Validate`, `run`), followed by the properties proved about them.

Conventions of the embedding

* A Go `error` is an `Option ε`: `none` is `nil`.  A Go `(obj, err)` result of
  a remote call or of a builder is an `Except ε Obj`; the source never reads
  the object of a failed call.
* Everything outside the two files is a parameter.  The orchestration API
  behind `kubernetes.Interface`, the builders, the cluster client and the
  pricing strategy are arbitrary transition functions on an environment state
  `σ`.  The subsystems that `NewService` starts and `run` waits for are
  described by the answers they give: whether a constructor succeeds, whether
  a completion channel is or gets closed.
* Every call that leaves the function under study is appended to a trace, so
  that "how many calls, with which arguments, in which order" is a statement
  about a list.
* A receive from a channel that never becomes readable blocks for ever; the
  functions that receive say whether they return.
* The `context.Context` argument is not modelled: cancellation and deadlines
  show up only as errors returned by the environment.
-/

namespace Provider

/-! ## Reconciler (`cluster/kube/apply.go`) -/

/-- The typed resource clients reached through `kubernetes.Interface`
(`CoreV1().Namespaces()`, `NetworkingV1().NetworkPolicies(ns)`,
`AppsV1().Deployments(ns)`, `AppsV1().StatefulSets(ns)`,
`CoreV1().Services(ns)`) and through `crdapi.Interface`
(`AkashV2beta2().Manifests(ns)`). -/
inductive Resource where
  | namespaces
  | networkPolicies
  | deployments
  | statefulSets
  | services
  | manifests
  deriving DecidableEq, Repr

/-- One entry of the trace of an applier.  Remote calls record their arguments
and the error they returned; builder calls record their argument; `metric`
records a call of `IncCounterVecWithLabelValues` (`filtered = false`) or of
`IncCounterVecWithLabelValuesFiltered` with `errors.IsNotFound`
(`filtered = true`). -/
inductive Event (Obj ε : Type) where
  | get (r : Resource) (ns name : String) (err : Option ε)
  | create (r : Resource) (ns : String) (obj : Obj) (err : Option ε)
  | update (r : Resource) (ns : String) (obj : Obj) (err : Option ε)
  | builderCreate
  | builderUpdate (cur : Obj)
  | metric (label : String) (err : Option ε) (filtered : Bool)

namespace Event

variable {Obj ε : Type}

/-- Is the event a remote `Get`? -/
def isGet : Event Obj ε → Bool
  | .get _ _ _ _ => true
  | _ => false

/-- Is the event a remote `Create`? -/
def isCreate : Event Obj ε → Bool
  | .create _ _ _ _ => true
  | _ => false

/-- Is the event a remote `Update`? -/
def isUpdate : Event Obj ε → Bool
  | .update _ _ _ _ => true
  | _ => false

/-- Is the event a remote call of any kind? -/
def isRemote (e : Event Obj ε) : Bool :=
  e.isGet || e.isCreate || e.isUpdate

/-- Is the event a call of the builder's `Create` or `Update`? -/
def isBuilder : Event Obj ε → Bool
  | .builderCreate => true
  | .builderUpdate _ => true
  | _ => false

/-- Is the event a remote `Create` or `Update` that returned a `nil` error? -/
def isAppliedWrite : Event Obj ε → Bool
  | .create _ _ _ err => err.isNone
  | .update _ _ _ err => err.isNone
  | _ => false

end Event

/-- The remote client: `kubernetes.Interface` and `crdapi.Interface`, flattened
to three operations addressed by resource kind and namespace (the namespace is
`""` for the cluster-scoped `Namespaces()`).  All kinds share one object type
`Obj`. -/
structure KubeInterface (σ Obj ε : Type) where
  Get : Resource → String → String → σ → Except ε Obj × σ
  Create : Resource → String → Obj → σ → Except ε Obj × σ
  Update : Resource → String → Obj → σ → Except ε Obj × σ

/-- The builders `builder.NS`, `builder.Deployment`, `builder.StatefulSet`,
`builder.Service`, `builder.Manifest`: the four methods the appliers call. -/
structure Builder (σ Obj ε : Type) where
  Name : String
  NS : String
  Create : σ → Except ε Obj × σ
  Update : Obj → σ → Except ε Obj × σ

/-- The builder `builder.NetPol`: `Create` yields the list of desired policies,
`Update` takes one fetched policy. -/
structure NetPolBuilder (σ Obj ε : Type) where
  NS : String
  Create : σ → Except ε (List Obj) × σ
  Update : Obj → σ → Except ε Obj × σ

/-- The environment state together with the trace of calls made so far; `Ev`
is the type of the trace entries. -/
structure World (σ Ev : Type) where
  env : σ
  trace : List Ev

/-- Append an event to the trace. -/
def World.log {σ Ev : Type} (w : World σ Ev) (e : Ev) : World σ Ev :=
  { w with trace := w.trace ++ [e] }

/-- The events a run appended to the trace of the world it started from. -/
def newEvents {σ Ev : Type} (w w' : World σ Ev) : List Ev :=
  w'.trace.drop w.trace.length

/-- The `err` of a Go `(value, err)` pair. -/
def errOf {ε α : Type} : Except ε α → Option ε
  | .ok _ => none
  | .error e => some e

section Reconciler

variable {σ Obj ε : Type}


/-- A remote `Get(ctx, name, metav1.GetOptions{})` on `(r, ns)`. -/
def kGet (kc : KubeInterface σ Obj ε) (r : Resource) (ns name : String)
    (w : World σ (Event Obj ε)) : Except ε Obj × World σ (Event Obj ε) :=
  let res := kc.Get r ns name w.env
  (res.1, { env := res.2, trace := w.trace ++ [Event.get r ns name (errOf res.1)] })

/-- A remote `Create(ctx, obj, metav1.CreateOptions{})` on `(r, ns)`. -/
def kCreate (kc : KubeInterface σ Obj ε) (r : Resource) (ns : String) (obj : Obj)
    (w : World σ (Event Obj ε)) : Except ε Obj × World σ (Event Obj ε) :=
  let res := kc.Create r ns obj w.env
  (res.1, { env := res.2, trace := w.trace ++ [Event.create r ns obj (errOf res.1)] })

/-- A remote `Update(ctx, obj, metav1.UpdateOptions{})` on `(r, ns)`. -/
def kUpdate (kc : KubeInterface σ Obj ε) (r : Resource) (ns : String) (obj : Obj)
    (w : World σ (Event Obj ε)) : Except ε Obj × World σ (Event Obj ε) :=
  let res := kc.Update r ns obj w.env
  (res.1, { env := res.2, trace := w.trace ++ [Event.update r ns obj (errOf res.1)] })

/-- The call `b.Create()`. -/
def bCreate (b : Builder σ Obj ε) (w : World σ (Event Obj ε)) :
    Except ε Obj × World σ (Event Obj ε) :=
  let res := b.Create w.env
  (res.1, { env := res.2, trace := w.trace ++ [Event.builderCreate] })

/-- The call `b.Update(obj)`. -/
def bUpdate (b : Builder σ Obj ε) (obj : Obj) (w : World σ (Event Obj ε)) :
    Except ε Obj × World σ (Event Obj ε) :=
  let res := b.Update obj w.env
  (res.1, { env := res.2, trace := w.trace ++ [Event.builderUpdate obj] })

/-- `metricsutils.IncCounterVecWithLabelValues(kubeCallsCounter, label, err)`. -/
def incCounter (label : String) (err : Option ε) (w : World σ (Event Obj ε)) :
    World σ (Event Obj ε) :=
  w.log (Event.metric label err false)

/-- `metricsutils.IncCounterVecWithLabelValuesFiltered(kubeCallsCounter, label,
err, errors.IsNotFound)`. -/
def incCounterFiltered (label : String) (err : Option ε) (w : World σ (Event Obj ε)) :
    World σ (Event Obj ε) :=
  w.log (Event.metric label err true)

/-- Embeds `applyNS` (apply.go, lines 18-37). -/
def applyNS (isNotFound : ε → Bool) (kc : KubeInterface σ Obj ε) (b : Builder σ Obj ε)
    (w : World σ (Event Obj ε)) : Option ε × World σ (Event Obj ε) :=
  match kGet kc .namespaces "" b.Name w with
  | (res, w) =>
    let w := incCounterFiltered "namespaces-get" (errOf res) w
    match res with
    | .ok obj =>
      match bUpdate b obj w with
      | (.ok obj, w) =>
        match kUpdate kc .namespaces "" obj w with
        | (res, w) => (errOf res, incCounter "namespaces-update" (errOf res) w)
      | (.error err, w) => (some err, w)
    | .error err =>
      if isNotFound err then
        match bCreate b w with
        | (.ok obj, w) =>
          match kCreate kc .namespaces "" obj w with
          | (res, w) => (errOf res, incCounter "namespaces-create" (errOf res) w)
        | (.error err, w) => (some err, w)
      else (some err, w)

/-- The call `b.Create()` of `builder.NetPol`. -/
def npCreate (b : NetPolBuilder σ Obj ε) (w : World σ (Event Obj ε)) :
    Except ε (List Obj) × World σ (Event Obj ε) :=
  let res := b.Create w.env
  (res.1, { env := res.2, trace := w.trace ++ [Event.builderCreate] })

/-- The call `b.Update(obj)` of `builder.NetPol`. -/
def npUpdate (b : NetPolBuilder σ Obj ε) (obj : Obj) (w : World σ (Event Obj ε)) :
    Except ε Obj × World σ (Event Obj ε) :=
  let res := b.Update obj w.env
  (res.1, { env := res.2, trace := w.trace ++ [Event.builderUpdate obj] })

/-- The body of the `for _, pol := range policies` loop of `applyNetPolicies`
(apply.go, lines 49-62).  It returns the value of the loop-scoped `err`
declared by `obj, err := ...Get(...)` on line 49.  `nameOf pol` is `pol.Name`.
The result of `b.Update(obj)` is discarded (`_, err = b.Update(obj)`) and the
remote calls carry `pol`. -/
def netPolBody (isNotFound : ε → Bool) (nameOf : Obj → String)
    (kc : KubeInterface σ Obj ε) (b : NetPolBuilder σ Obj ε) (pol : Obj)
    (w : World σ (Event Obj ε)) : Option ε × World σ (Event Obj ε) :=
  match kGet kc .networkPolicies b.NS (nameOf pol) w with
  | (res, w) =>
    let w := incCounterFiltered "networking-policies-get" (errOf res) w
    match res with
    | .ok obj =>
      match npUpdate b obj w with
      | (.ok _, w) =>
        match kUpdate kc .networkPolicies b.NS pol w with
        | (res, w) => (errOf res, incCounter "networking-policies-update" (errOf res) w)
      | (.error err, w) => (some err, w)
    | .error err =>
      if isNotFound err then
        match kCreate kc .networkPolicies b.NS pol w with
        | (res, w) => (errOf res, incCounter "networking-policies-create" (errOf res) w)
      else (some err, w)

/-- The loop of `applyNetPolicies` (apply.go, lines 48-66): the body is run on
each policy in list order and the loop is left (`break`) as soon as the
loop-scoped `err` is non-nil.  The value returned is that loop-scoped `err` of
the last iteration run (`none` when no iteration ran). -/
def netPolLoop (isNotFound : ε → Bool) (nameOf : Obj → String)
    (kc : KubeInterface σ Obj ε) (b : NetPolBuilder σ Obj ε) :
    List Obj → World σ (Event Obj ε) → Option ε × World σ (Event Obj ε)
  | [], w => (none, w)
  | pol :: rest, w =>
    match netPolBody isNotFound nameOf kc b pol w with
    | (some err, w) => (some err, w)
    | (none, w) => netPolLoop isNotFound nameOf kc b rest w

/-- Embeds `applyNetPolicies` (apply.go, lines 40-69).  The function-scoped
`err` (line 41, assigned by `policies, err := b.Create()` on line 43) is the
one `return err` on line 68 reads.  Inside the loop `obj, err := ...` declares
a new `err` in the scope of the loop body, and every later assignment and the
`if err != nil` test in the body refer to that one; the function-scoped `err`
is never assigned again after line 43. -/
def applyNetPolicies (isNotFound : ε → Bool) (nameOf : Obj → String)
    (kc : KubeInterface σ Obj ε) (b : NetPolBuilder σ Obj ε)
    (w : World σ (Event Obj ε)) : Option ε × World σ (Event Obj ε) :=
  match npCreate b w with
  | (res, w) =>
    let err := errOf res
    match res with
    | .error _ => (err, w)
    | .ok policies =>
      match netPolLoop isNotFound nameOf kc b policies w with
      | (_, w) => (err, w)

/-- Embeds `applyDeployment` (apply.go, lines 89-110). -/
def applyDeployment (isNotFound : ε → Bool) (kc : KubeInterface σ Obj ε)
    (b : Builder σ Obj ε) (w : World σ (Event Obj ε)) : Option ε × World σ (Event Obj ε) :=
  match kGet kc .deployments b.NS b.Name w with
  | (res, w) =>
    let w := incCounterFiltered "deployments-get" (errOf res) w
    match res with
    | .ok obj =>
      match bUpdate b obj w with
      | (.ok obj, w) =>
        match kUpdate kc .deployments b.NS obj w with
        | (res, w) => (errOf res, incCounter "deployments-update" (errOf res) w)
      | (.error err, w) => (some err, w)
    | .error err =>
      if isNotFound err then
        match bCreate b w with
        | (.ok obj, w) =>
          match kCreate kc .deployments b.NS obj w with
          | (res, w) => (errOf res, incCounter "deployments-create" (errOf res) w)
        | (.error err, w) => (some err, w)
      else (some err, w)

/-- Embeds `applyStatefulSet` (apply.go, lines 112-133). -/
def applyStatefulSet (isNotFound : ε → Bool) (kc : KubeInterface σ Obj ε)
    (b : Builder σ Obj ε) (w : World σ (Event Obj ε)) : Option ε × World σ (Event Obj ε) :=
  match kGet kc .statefulSets b.NS b.Name w with
  | (res, w) =>
    let w := incCounterFiltered "deployments-get" (errOf res) w
    match res with
    | .ok obj =>
      match bUpdate b obj w with
      | (.ok obj, w) =>
        match kUpdate kc .statefulSets b.NS obj w with
        | (res, w) => (errOf res, incCounter "deployments-update" (errOf res) w)
      | (.error err, w) => (some err, w)
    | .error err =>
      if isNotFound err then
        match bCreate b w with
        | (.ok obj, w) =>
          match kCreate kc .statefulSets b.NS obj w with
          | (res, w) => (errOf res, incCounter "deployments-create" (errOf res) w)
        | (.error err, w) => (some err, w)
      else (some err, w)

/-- Embeds `applyService` (apply.go, lines 135-154). -/
def applyService (isNotFound : ε → Bool) (kc : KubeInterface σ Obj ε)
    (b : Builder σ Obj ε) (w : World σ (Event Obj ε)) : Option ε × World σ (Event Obj ε) :=
  match kGet kc .services b.NS b.Name w with
  | (res, w) =>
    let w := incCounterFiltered "services-get" (errOf res) w
    match res with
    | .ok obj =>
      match bUpdate b obj w with
      | (.ok obj, w) =>
        match kUpdate kc .services b.NS obj w with
        | (res, w) => (errOf res, incCounter "services-update" (errOf res) w)
      | (.error err, w) => (some err, w)
    | .error err =>
      if isNotFound err then
        match bCreate b w with
        | (.ok obj, w) =>
          match kCreate kc .services b.NS obj w with
          | (res, w) => (errOf res, incCounter "services-create" (errOf res) w)
        | (.error err, w) => (some err, w)
      else (some err, w)

/-- Embeds `applyManifest` (apply.go, lines 156-177). -/
def applyManifest (isNotFound : ε → Bool) (kc : KubeInterface σ Obj ε)
    (b : Builder σ Obj ε) (w : World σ (Event Obj ε)) : Option ε × World σ (Event Obj ε) :=
  match kGet kc .manifests b.NS b.Name w with
  | (res, w) =>
    let w := incCounterFiltered "akash-manifests-get" (errOf res) w
    match res with
    | .ok obj =>
      match bUpdate b obj w with
      | (.ok obj, w) =>
        match kUpdate kc .manifests b.NS obj w with
        | (res, w) => (errOf res, incCounter "akash-manifests-update" (errOf res) w)
      | (.error err, w) => (some err, w)
    | .error err =>
      if isNotFound err then
        match bCreate b w with
        | (.ok obj, w) =>
          match kCreate kc .manifests b.NS obj w with
          | (res, w) => (errOf res, incCounter "akash-manifests-create" (errOf res) w)
        | (.error err, w) => (some err, w)
      else (some err, w)

/-- The five single-object appliers of apply.go. -/
inductive Applier where
  | ns
  | deployment
  | statefulSet
  | service
  | manifest
  deriving DecidableEq, Repr

/-- The resource client an applier talks to. -/
def Applier.resource : Applier → Resource
  | .ns => .namespaces
  | .deployment => .deployments
  | .statefulSet => .statefulSets
  | .service => .services
  | .manifest => .manifests

/-- The namespace an applier addresses: `b.NS()`, except for `applyNS`, whose
`Namespaces()` client is cluster-scoped. -/
def Applier.nsOf (a : Applier) (b : Builder σ Obj ε) : String :=
  match a with
  | .ns => ""
  | _ => b.NS

/-- Dispatch to the source function of the applier. -/
def Applier.run (a : Applier) (isNotFound : ε → Bool) (kc : KubeInterface σ Obj ε)
    (b : Builder σ Obj ε) (w : World σ (Event Obj ε)) : Option ε × World σ (Event Obj ε) :=
  match a with
  | .ns => applyNS isNotFound kc b w
  | .deployment => applyDeployment isNotFound kc b w
  | .statefulSet => applyStatefulSet isNotFound kc b w
  | .service => applyService isNotFound kc b w
  | .manifest => applyManifest isNotFound kc b w

end Reconciler

/-! ### Shapes of the remote calls of one member of a network-policy list -/

section NetPolShapes

variable {Obj ε : Type}

/-- The remote calls of a member `pol` that was applied: one get of `pol.Name`
followed by one successful write of `pol`, a create after a not-found get or
an update after a successful get. -/
def memberApplied (isNotFound : ε → Bool) (nameOf : Obj → String) (ns : String)
    (pol : Obj) (calls : List (Event Obj ε)) : Prop :=
  (∃ e0, isNotFound e0 = true ∧
      calls = [Event.get .networkPolicies ns (nameOf pol) (some e0),
               Event.create .networkPolicies ns pol none])
  ∨ calls = [Event.get .networkPolicies ns (nameOf pol) none,
             Event.update .networkPolicies ns pol none]

/-- The remote calls of a member `pol` whose apply failed with `e`: the get
failed with `e`, not a not-found error; or the get succeeded and the builder's
`Update` failed with `e` (no write); or the create, or the update, of `pol`
failed with `e`. -/
def memberFailed (isNotFound : ε → Bool) (nameOf : Obj → String) (ns : String)
    (pol : Obj) (e : ε) (calls : List (Event Obj ε)) : Prop :=
  (isNotFound e = false ∧ calls = [Event.get .networkPolicies ns (nameOf pol) (some e)])
  ∨ calls = [Event.get .networkPolicies ns (nameOf pol) none]
  ∨ (∃ e0, isNotFound e0 = true ∧
      calls = [Event.get .networkPolicies ns (nameOf pol) (some e0),
               Event.create .networkPolicies ns pol (some e)])
  ∨ calls = [Event.get .networkPolicies ns (nameOf pol) none,
             Event.update .networkPolicies ns pol (some e)]

/-- The remote calls `calls` are those of applying the members of `pols` one
after the other, in list order, each of them successfully. -/
def appliedInOrder (isNotFound : ε → Bool) (nameOf : Obj → String) (ns : String) :
    List Obj → List (Event Obj ε) → Prop
  | [], calls => calls = []
  | pol :: rest, calls =>
    ∃ c1 c2, calls = c1 ++ c2 ∧ memberApplied isNotFound nameOf ns pol c1 ∧
      appliedInOrder isNotFound nameOf ns rest c2

end NetPolShapes

/-! ### What the remote API and the builder answer to one member of a
network-policy list -/

section NetPolAnswers

variable {σ Obj ε : Type}

/-- The remote API and the builder, starting in state `s`, let the member `pol`
apply, with remote calls `calls`, and leave the state `s'`: either the get of
`pol.Name` answers a not-found error and the create of `pol` succeeds, or the
get answers a current object, the builder's `Update` succeeds on it and the
update of `pol` succeeds. -/
def memberApplies (isNotFound : ε → Bool) (nameOf : Obj → String)
    (kc : KubeInterface σ Obj ε) (b : NetPolBuilder σ Obj ε) (pol : Obj) (s : σ)
    (calls : List (Event Obj ε)) (s' : σ) : Prop :=
  (∃ e0 s1 o,
      kc.Get .networkPolicies b.NS (nameOf pol) s = (Except.error e0, s1)
      ∧ isNotFound e0 = true
      ∧ kc.Create .networkPolicies b.NS pol s1 = (Except.ok o, s')
      ∧ calls = [Event.get .networkPolicies b.NS (nameOf pol) (some e0),
                 Event.create .networkPolicies b.NS pol none])
  ∨ (∃ cur s1 u s2 o,
      kc.Get .networkPolicies b.NS (nameOf pol) s = (Except.ok cur, s1)
      ∧ b.Update cur s1 = (Except.ok u, s2)
      ∧ kc.Update .networkPolicies b.NS pol s2 = (Except.ok o, s')
      ∧ calls = [Event.get .networkPolicies b.NS (nameOf pol) none,
                 Event.update .networkPolicies b.NS pol none])

/-- The remote API and the builder, starting in state `s`, make the apply of
the member `pol` fail with `e`, with remote calls `calls`, and leave the state
`s'`: the get fails with `e`, not a not-found error; or the get succeeds and
the builder's `Update` fails with `e`; or the get answers not-found and the
create of `pol` fails with `e`; or the get and the builder's `Update` succeed
and the update of `pol` fails with `e`. -/
def memberFails (isNotFound : ε → Bool) (nameOf : Obj → String)
    (kc : KubeInterface σ Obj ε) (b : NetPolBuilder σ Obj ε) (pol : Obj) (s : σ)
    (e : ε) (calls : List (Event Obj ε)) (s' : σ) : Prop :=
  (kc.Get .networkPolicies b.NS (nameOf pol) s = (Except.error e, s')
      ∧ isNotFound e = false
      ∧ calls = [Event.get .networkPolicies b.NS (nameOf pol) (some e)])
  ∨ (∃ cur s1,
      kc.Get .networkPolicies b.NS (nameOf pol) s = (Except.ok cur, s1)
      ∧ b.Update cur s1 = (Except.error e, s')
      ∧ calls = [Event.get .networkPolicies b.NS (nameOf pol) none])
  ∨ (∃ e0 s1,
      kc.Get .networkPolicies b.NS (nameOf pol) s = (Except.error e0, s1)
      ∧ isNotFound e0 = true
      ∧ kc.Create .networkPolicies b.NS pol s1 = (Except.error e, s')
      ∧ calls = [Event.get .networkPolicies b.NS (nameOf pol) (some e0),
                 Event.create .networkPolicies b.NS pol (some e)])
  ∨ (∃ cur s1 u s2,
      kc.Get .networkPolicies b.NS (nameOf pol) s = (Except.ok cur, s1)
      ∧ b.Update cur s1 = (Except.ok u, s2)
      ∧ kc.Update .networkPolicies b.NS pol s2 = (Except.error e, s')
      ∧ calls = [Event.get .networkPolicies b.NS (nameOf pol) none,
                 Event.update .networkPolicies b.NS pol (some e)])

/-- The remote API and the builder, starting in state `s`, let the members of
`pols` apply one after the other in list order, with remote calls `calls`, and
leave the state `s'`. -/
def membersApply (isNotFound : ε → Bool) (nameOf : Obj → String)
    (kc : KubeInterface σ Obj ε) (b : NetPolBuilder σ Obj ε) :
    List Obj → σ → List (Event Obj ε) → σ → Prop
  | [], s, calls, s' => calls = [] ∧ s' = s
  | pol :: rest, s, calls, s' =>
    ∃ c1 s1 c2, memberApplies isNotFound nameOf kc b pol s c1 s1
      ∧ membersApply isNotFound nameOf kc b rest s1 c2 s'
      ∧ calls = c1 ++ c2

end NetPolAnswers

/-! ### A small in-memory cluster

Used to run the appliers on concrete inputs.  The state is the list of names
stored, an object is its name, an error is a status code. -/

/-- The status code of "not found". -/
def fakeIsNotFound (code : Nat) : Bool := code == 404

/-- An in-memory remote API: `Get` answers 404 for a name that is not stored,
`Create` stores the name (409 when it is there already), `Update` answers 404
for a name that is not stored. -/
def fakeKube : KubeInterface (List String) String Nat where
  Get := fun _ _ name s => if name ∈ s then (.ok name, s) else (.error 404, s)
  Create := fun _ _ obj s => if obj ∈ s then (.error 409, s) else (.ok obj, obj :: s)
  Update := fun _ _ obj s => if obj ∈ s then (.ok obj, s) else (.error 404, s)

/-- A remote API whose every call fails with status 500. -/
def brokenKube : KubeInterface (List String) String Nat where
  Get := fun _ _ _ s => (.error 500, s)
  Create := fun _ _ _ s => (.error 500, s)
  Update := fun _ _ _ s => (.error 500, s)

/-- The in-memory remote API, except that every call on the name `bad` fails
with status 500. -/
def flakyKube (bad : String) : KubeInterface (List String) String Nat where
  Get := fun r ns name s => if name = bad then (.error 500, s) else fakeKube.Get r ns name s
  Create := fun r ns obj s => if obj = bad then (.error 500, s) else fakeKube.Create r ns obj s
  Update := fun r ns obj s => if obj = bad then (.error 500, s) else fakeKube.Update r ns obj s

/-- A builder for the object named `name` in namespace `ns`; its `Update`
returns the current object unchanged. -/
def fakeBuilder (ns name : String) : Builder (List String) String Nat where
  Name := name
  NS := ns
  Create := fun s => (.ok name, s)
  Update := fun cur s => (.ok cur, s)

/-- A network-policy builder whose desired list is `pols`. -/
def fakeNetPol (ns : String) (pols : List String) : NetPolBuilder (List String) String Nat where
  NS := ns
  Create := fun s => (.ok pols, s)
  Update := fun cur s => (.ok cur, s)

/-! ## Supervisor (`service.go`): `Validate` -/

/-- The type `sdk.Address`, reduced to its `String()` method. -/
structure Address where
  str : String
  deriving DecidableEq, Repr

/-- The type `bidengine.Request`: the two fields `Validate` fills. -/
structure Request (G : Type) where
  Owner : String
  GSpec : G

/-- The struct `reservation` (service.go, lines 270-274).  `resources` is of the
interface type `atypes.ResourceGroup` and `clusterParams` of type
`interface{}`; both may be `nil`.  A `nil` slice is the empty list. -/
structure reservation (RG R P : Type) where
  resources : Option RG
  adjustedResources : List R
  clusterParams : Option P

namespace reservation

variable {RG R P : Type}

/-- Embeds `(*reservation).Resources` (service.go, lines 278-280). -/
def Resources (r : reservation RG R P) : Option RG :=
  r.resources

/-- Embeds `(*reservation).SetAllocatedResources` (service.go, lines 282-284). -/
def SetAllocatedResources (r : reservation RG R P) (val : List R) : reservation RG R P :=
  { r with adjustedResources := val }

/-- Embeds `(*reservation).SetClusterParams` (service.go, lines 286-288). -/
def SetClusterParams (r : reservation RG R P) (val : Option P) : reservation RG R P :=
  { r with clusterParams := val }

/-- Embeds `(*reservation).ClusterParams` (service.go, lines 290-292). -/
def ClusterParams (r : reservation RG R P) : Option P :=
  r.clusterParams

end reservation

/-- The type `ValidateGroupSpecResult`. -/
structure ValidateGroupSpecResult (Price : Type) where
  MinBidPrice : Price

/-- The zero value `ValidateGroupSpecResult{}`; the zero value of the price type
is `default`. -/
def ValidateGroupSpecResult.empty {Price : Type} [Inhabited Price] :
    ValidateGroupSpecResult Price :=
  { MinBidPrice := default }

/-- The interface `cluster.Client` as `Validate` uses it: `Inventory(ctx)` and,
on the snapshot `inv` it returns, `inv.Adjust(res, opts...)`.  The only option
the source passes is `ctypes.WithDryRun()`, so the options are one flag. -/
structure ClusterClient (σ Inv RG R P ε : Type) where
  Inventory : σ → Except ε Inv × σ
  Adjust : Inv → reservation RG R P → Bool → σ → Option ε × σ

/-- The pricing strategy `cfg.BidPricingStrategy`. -/
structure PricingStrategy (σ G Price ε : Type) where
  CalculatePrice : Request G → σ → Except ε Price × σ

/-- The fields of `Config` that `Validate` and `Status` read. -/
structure Config (σ G Price ε : Type) where
  BidPricingStrategy : PricingStrategy σ G Price ε
  ClusterPublicHostname : String

/-- The struct `service` (service.go, lines 153-167): the configuration, the
cluster client and the handles of the four subsystems.  `session`, `bus`,
`ctx`, `cancel` and `lc` are not data of the model: their calls are trace
entries. -/
structure service (Cfg CC H : Type) where
  config : Cfg
  cclient : CC
  cluster : H
  bidengine : H
  manifest : H
  bc : H

/-- One entry of the trace of `Validate`: a call of a collaborator with its
arguments and the error it returned. -/
inductive SvcEvent (RG R P G ε : Type) where
  | inventory (err : Option ε)
  | adjust (res : reservation RG R P) (dryRun : Bool) (err : Option ε)
  | calculatePrice (req : Request G) (err : Option ε)

namespace SvcEvent

variable {RG R P G ε : Type}

/-- Is the event a call of `CalculatePrice`? -/
def isCalculatePrice : SvcEvent RG R P G ε → Bool
  | .calculatePrice _ _ => true
  | _ => false

/-- Is the event a call of `Adjust`? -/
def isAdjust : SvcEvent RG R P G ε → Bool
  | .adjust _ _ _ => true
  | _ => false

/-- Is the event a call of `Adjust` without the dry-run option? -/
def isCommittingAdjust : SvcEvent RG R P G ε → Bool
  | .adjust _ dryRun _ => !dryRun
  | _ => false

/-- Is the event a call of `Adjust` on a reservation whose `Resources()` is not
`nil`? -/
def carriesDemand : SvcEvent RG R P G ε → Bool
  | .adjust res _ _ => res.Resources.isSome
  | _ => false

end SvcEvent

section Validate

variable {σ Inv RG R P G Price ε H : Type}

/-- The call `s.cclient.Inventory(ctx)`. -/
def callInventory (cc : ClusterClient σ Inv RG R P ε) (w : World σ (SvcEvent RG R P G ε)) :
    Except ε Inv × World σ (SvcEvent RG R P G ε) :=
  let res := cc.Inventory w.env
  (res.1, { env := res.2, trace := w.trace ++ [SvcEvent.inventory (errOf res.1)] })

/-- The call `inv.Adjust(res, opts...)`. -/
def callAdjust (cc : ClusterClient σ Inv RG R P ε) (inv : Inv) (res : reservation RG R P)
    (dryRun : Bool) (w : World σ (SvcEvent RG R P G ε)) :
    Option ε × World σ (SvcEvent RG R P G ε) :=
  let out := cc.Adjust inv res dryRun w.env
  (out.1, { env := out.2, trace := w.trace ++ [SvcEvent.adjust res dryRun out.1] })

/-- The call `s.config.BidPricingStrategy.CalculatePrice(ctx, req)`. -/
def callCalculatePrice (ps : PricingStrategy σ G Price ε) (req : Request G)
    (w : World σ (SvcEvent RG R P G ε)) : Except ε Price × World σ (SvcEvent RG R P G ε) :=
  let res := ps.CalculatePrice req w.env
  (res.1, { env := res.2, trace := w.trace ++ [SvcEvent.calculatePrice req (errOf res.1)] })

/-- Embeds `(*service).Validate` (service.go, lines 215-244).  The result is the
Go pair `(ValidateGroupSpecResult, error)`. -/
def service.Validate [Inhabited Price]
    (s : service (Config σ G Price ε) (ClusterClient σ Inv RG R P ε) H)
    (owner : Address) (gspec : G) (w : World σ (SvcEvent RG R P G ε)) :
    (ValidateGroupSpecResult Price × Option ε) × World σ (SvcEvent RG R P G ε) :=
  let req : Request G := { Owner := owner.str, GSpec := gspec }
  match callInventory s.cclient w with
  | (.error err, w) => ((ValidateGroupSpecResult.empty, some err), w)
  | (.ok inv, w) =>
    let res : reservation RG R P :=
      { resources := none, adjustedResources := [], clusterParams := none }
    match callAdjust s.cclient inv res true w with
    | (some err, w) => ((ValidateGroupSpecResult.empty, some err), w)
    | (none, w) =>
      match callCalculatePrice s.config.BidPricingStrategy req w with
      | (.error err, w) => ((ValidateGroupSpecResult.empty, some err), w)
      | (.ok price, w) => (({ MinBidPrice := price }, none), w)

end Validate

/-! ## Supervisor (`service.go`): `NewService` and `run`

Each subsystem is started at most once by `NewService` and each completion
channel is received from at most once by `NewService` and by `run`, so the
environment is described by the answer it gives to each of these calls. -/

/-- The four subsystems the supervisor owns: the balance checker (`bc`), the
cluster service, the bid engine and the manifest service. -/
inductive Subsystem where
  | balanceChecker
  | cluster
  | bidengine
  | manifest
  deriving DecidableEq, Repr

/-- The position of a subsystem in the startup order of `NewService`. -/
def Subsystem.stage : Subsystem → Nat
  | .balanceChecker => 1
  | .cluster => 2
  | .bidengine => 3
  | .manifest => 4

/-- The subsystems in startup order. -/
def startOrder : List Subsystem :=
  [.balanceChecker, .cluster, .bidengine, .manifest]

/-- The environment of `NewService`: `start sub` is the result of the
constructor of `sub` (`newBalanceChecker`, `cluster.NewService`,
`bidengine.NewService`, `manifest.NewService`), a handle or an error;
`doneCloses sub` tells whether the completion channel of `sub` gets closed
once the shared context is cancelled, that is whether a receive from it
returns. -/
structure StartEnv (ε H : Type) where
  start : Subsystem → Except ε H
  doneCloses : Subsystem → Bool

/-- One entry of the trace of `NewService`. -/
inductive StartEvent (ε : Type) where
  | start (sub : Subsystem) (err : Option ε)
  | logError (msg : String) (err : ε)
  | cancel
  | awaitDone (sub : Subsystem)
  | goWatchContext
  | goRun

namespace StartEvent

variable {ε : Type}

/-- The subsystem whose constructor the event calls. -/
def started : StartEvent ε → Option Subsystem
  | .start sub _ => some sub
  | _ => none

/-- Is the event the call `cancel()`? -/
def isCancel : StartEvent ε → Bool
  | .cancel => true
  | _ => false

/-- The subsystem whose completion the event receives. -/
def awaited : StartEvent ε → Option Subsystem
  | .awaitDone sub => some sub
  | _ => none

/-- Is the event a completed receive from a completion channel? -/
def isAwait : StartEvent ε → Bool
  | .awaitDone _ => true
  | _ => false

end StartEvent

/-- The events of a trace that precede the first `cancel()`. -/
def beforeCancel {ε : Type} (t : List (StartEvent ε)) : List (StartEvent ε) :=
  t.takeWhile (fun ev => !ev.isCancel)

/-- The events of a trace that follow the first `cancel()`. -/
def afterCancel {ε : Type} (t : List (StartEvent ε)) : List (StartEvent ε) :=
  (t.dropWhile (fun ev => !ev.isCancel)).drop 1

section NewService

variable {ε H Cfg CC : Type}

/-- The receive `<-x.Done()` in `NewService`: it returns, and is recorded, when
the channel gets closed; otherwise the caller stays blocked (`none`). -/
def awaitStarted (env : StartEnv ε H) (sub : Subsystem) (t : List (StartEvent ε)) :
    Option (List (StartEvent ε)) :=
  if env.doneCloses sub then some (t ++ [StartEvent.awaitDone sub]) else none

/-- Embeds `NewService` (service.go, lines 61-151), from the first constructor
call on line 86.  The first component is what the function returns, `none`
when it never returns because a receive blocks for ever; `Except.error err` is
the Go pair `(nil, err)` and `Except.ok svc` is `(svc, nil)`.  `wrap err msg`
is `errors.Wrap(err, msg)` for a non-nil `err`. -/
def NewService (wrap : ε → String → ε) (env : StartEnv ε H) (cclient : CC) (cfg : Cfg) :
    Option (Except ε (service Cfg CC H)) × List (StartEvent ε) :=
  match env.start .balanceChecker with
  | .error err =>
    (some (.error err),
      [.start .balanceChecker (some err), .logError "starting balance checker" err, .cancel])
  | .ok bc =>
    let t := [StartEvent.start .balanceChecker none]
    match env.start .cluster with
    | .error err =>
      let t := t ++ [.start .cluster (some err), .cancel]
      match awaitStarted env .balanceChecker t with
      | none => (none, t)
      | some t => (some (.error err), t)
    | .ok cluster =>
      let t := t ++ [.start .cluster none]
      match env.start .bidengine with
      | .error err =>
        let errmsg := "creating bidengine service"
        let t := t ++ [.start .bidengine (some err), .logError errmsg err, .cancel]
        match awaitStarted env .cluster t with
        | none => (none, t)
        | some t =>
          match awaitStarted env .balanceChecker t with
          | none => (none, t)
          | some t => (some (.error (wrap err errmsg)), t)
      | .ok bidengine =>
        let t := t ++ [.start .bidengine none]
        match env.start .manifest with
        | .error err =>
          let t := t ++ [.start .manifest (some err),
            .logError "creating manifest handler" err, .cancel]
          match awaitStarted env .cluster t with
          | none => (none, t)
          | some t =>
            match awaitStarted env .bidengine t with
            | none => (none, t)
            | some t =>
              match awaitStarted env .balanceChecker t with
              | none => (none, t)
              | some t => (some (.error err), t)
        | .ok manifest =>
          let t := t ++ [.start .manifest none]
          let svc : service Cfg CC H :=
            { config := cfg, cclient := cclient, cluster := cluster,
              bidengine := bidengine, manifest := manifest, bc := bc }
          (some (.ok svc), t ++ [.goWatchContext, .goRun])

end NewService

/-- What can end the wait of the `select` in `run`. -/
inductive Wake where
  | shutdownRequest
  | done (sub : Subsystem)
  deriving DecidableEq, Repr

/-- The cases of the `select` in `run` (service.go, lines 250-255), in source
order. -/
def selectCases : List Wake :=
  [.shutdownRequest, .done .cluster, .done .bidengine, .done .manifest]

/-- The environment of `run`: `shutdownRequested` tells whether
`s.lc.ShutdownRequest()` is readable while the run-loop waits; `terminated sub`
whether `sub` has terminated, its completion channel closed, while the
run-loop waits; `completes sub` whether the completion channel of `sub` gets
closed once the shared context is cancelled. -/
structure RunEnv where
  shutdownRequested : Bool
  terminated : Subsystem → Bool
  completes : Subsystem → Bool

/-- Is the channel of a wake-up event readable while the run-loop waits? -/
def RunEnv.ready (env : RunEnv) : Wake → Bool
  | .shutdownRequest => env.shutdownRequested
  | .done sub => env.terminated sub

/-- Does a receive from the completion channel of `sub` return?  A closed
channel stays closed. -/
def RunEnv.closes (env : RunEnv) (sub : Subsystem) : Bool :=
  env.terminated sub || env.completes sub

/-- One entry of the trace of `run`. -/
inductive RunEvent where
  | wake (wk : Wake)
  | shutdownInitiated
  | cancel
  | awaitDone (sub : Subsystem)
  | logInfo (msg : String)
  | shutdownCompleted
  deriving DecidableEq, Repr

/-- Is the event the call `s.lc.ShutdownCompleted()`, which fires `Done()`? -/
def RunEvent.isShutdownCompleted : RunEvent → Bool
  | .shutdownCompleted => true
  | _ => false

/-- One execution of `run`: whether it returned, and its trace. -/
structure RunResult where
  returned : Bool
  trace : List RunEvent
  deriving DecidableEq, Repr

/-- The receive `<-x.Done()` in `run`: it returns, and is recorded, when the
channel is or gets closed; otherwise the run-loop stays blocked (`none`). -/
def awaitSub (env : RunEnv) (sub : Subsystem) (t : List RunEvent) : Option (List RunEvent) :=
  if env.closes sub then some (t ++ [RunEvent.awaitDone sub]) else none

/-- The rest of `run` once the `select` has taken the case `wk` (service.go,
lines 257-267), ended by the deferred `s.lc.ShutdownCompleted()` of line 247. -/
def runAfterWake (env : RunEnv) (wk : Wake) : RunResult :=
  let t := [RunEvent.wake wk, .shutdownInitiated, .cancel]
  match awaitSub env .cluster t with
  | none => { returned := false, trace := t }
  | some t =>
    match awaitSub env .bidengine t with
    | none => { returned := false, trace := t }
    | some t =>
      match awaitSub env .manifest t with
      | none => { returned := false, trace := t }
      | some t =>
        match awaitSub env .balanceChecker t with
        | none => { returned := false, trace := t }
        | some t =>
          { returned := true,
            trace := t ++ [.logInfo "shutdown complete", .shutdownCompleted] }

/-- Embeds `(*service).run` (service.go, lines 246-268): the executions that are
possible in the environment `env`.  The `select` takes any case whose channel
is readable; when none is, the run-loop stays blocked in it. -/
def run (env : RunEnv) : List RunResult :=
  match selectCases.filter env.ready with
  | [] => [{ returned := false, trace := [] }]
  | wk :: wks => (wk :: wks).map (runAfterWake env)

/-- The statement "when `sub` alone terminates while the run-loop waits, the
run-loop leaves its wait, initiates shutdown and fires the shared
cancellation": in every environment without a shutdown request in which `sub`
and no other subsystem has terminated, every execution of `run` has
`ShutdownInitiated` and `cancel` in its trace. -/
def wakesRunLoop (sub : Subsystem) : Prop :=
  ∀ env : RunEnv, env.shutdownRequested = false →
    (∀ j, env.terminated j = true ↔ j = sub) →
    ∀ r ∈ run env, RunEvent.shutdownInitiated ∈ r.trace ∧ RunEvent.cancel ∈ r.trace

/-! ## Supervisor (`service.go`): `Status` -/

/-- The struct `Status`: the three sub-statuses and the public hostname of the
cluster. -/
structure Status (CS BS MS : Type) where
  Cluster : CS
  Bidengine : BS
  Manifest : MS
  ClusterPublicHostname : String

/-- The `Status(ctx)` methods of the three handles `s.cluster`, `s.bidengine`
and `s.manifest`, each returning its sub-status or an error. -/
structure StatusMethods (σ H CS BS MS ε : Type) where
  cluster : H → σ → Except ε CS × σ
  bidengine : H → σ → Except ε BS × σ
  manifest : H → σ → Except ε MS × σ

/-- One entry of the trace of `Status`: the query of the sub-status of `sub`
and the error it returned. -/
inductive StatusEvent (ε : Type) where
  | status (sub : Subsystem) (err : Option ε)

section Status

variable {σ H CS BS MS G Price CC ε α : Type}

/-- A call `x.Status(ctx)` on the handle of `sub`. -/
def callStatus (sub : Subsystem) (query : σ → Except ε α × σ)
    (w : World σ (StatusEvent ε)) : Except ε α × World σ (StatusEvent ε) :=
  let res := query w.env
  (res.1, { env := res.2, trace := w.trace ++ [StatusEvent.status sub (errOf res.1)] })

/-- Embeds `(*service).Status` (service.go, lines 194-213).  The result is the
Go pair `(*Status, error)`: a `nil` pointer is `none`. -/
def service.Status (s : service (Config σ G Price ε) CC H)
    (m : StatusMethods σ H CS BS MS ε) (w : World σ (StatusEvent ε)) :
    (Option (Status CS BS MS) × Option ε) × World σ (StatusEvent ε) :=
  match callStatus .cluster (m.cluster s.cluster) w with
  | (.error err, w) => ((none, some err), w)
  | (.ok cluster, w) =>
    match callStatus .bidengine (m.bidengine s.bidengine) w with
    | (.error err, w) => ((none, some err), w)
    | (.ok bidengine, w) =>
      match callStatus .manifest (m.manifest s.manifest) w with
      | (.error err, w) => ((none, some err), w)
      | (.ok manifest, w) =>
        ((some { Cluster := cluster, Bidengine := bidengine, Manifest := manifest,
                 ClusterPublicHostname := s.config.ClusterPublicHostname }, none), w)

end Status

/-! ### A capacity-checking cluster client

Used to run `Validate` on concrete inputs.  A resource group is its CPU demand,
an inventory snapshot is the CPU it has available, a price is a number. -/

/-- The CPU a reservation demands: that of its `Resources()`, nothing when
`Resources()` is `nil`. -/
def cpuDemand {R P : Type} (res : reservation Nat R P) : Nat :=
  match res.Resources with
  | some cpu => cpu
  | none => 0

/-- The error code of "insufficient capacity". -/
def errInsufficientCapacity : Nat := 507

/-- A cluster client whose inventory has `avail` CPU and whose `Adjust` rejects
a reservation exactly when it demands more CPU than is available.  The state
counts nothing: `Adjust` never commits. -/
def capacityClient (avail : Nat) : ClusterClient Unit Nat Nat Unit Unit Nat where
  Inventory := fun s => (.ok avail, s)
  Adjust := fun inv res _ s =>
    if inv < cpuDemand res then (some errInsufficientCapacity, s) else (none, s)

/-- A pricing strategy that prices a group spec (its CPU demand) at one unit
per CPU. -/
def unitPricing : PricingStrategy Unit Nat Nat Nat where
  CalculatePrice := fun req s => (.ok req.GSpec, s)

/-- A supervisor over `capacityClient avail` and `unitPricing`. -/
def capacityService (avail : Nat) :
    service (Config Unit Nat Nat Nat) (ClusterClient Unit Nat Nat Unit Unit Nat) Unit where
  config := { BidPricingStrategy := unitPricing, ClusterPublicHostname := "provider.example" }
  cclient := capacityClient avail
  cluster := ()
  bidengine := ()
  manifest := ()
  bc := ()

/-! ### Environments of `NewService` and `run` used on concrete inputs -/

/-- An error value: a message, possibly wrapped with further messages. -/
inductive StartErr where
  | msg (text : String)
  | wrapped (cause : StartErr) (text : String)
  deriving DecidableEq, Repr

/-- An environment of `NewService` in which every constructor succeeds except
that of `bad`, which fails with "boom", and in which every completion channel
gets closed after cancellation.  A handle is the name of its subsystem. -/
def failingStart (bad : Subsystem) : StartEnv StartErr Subsystem where
  start := fun sub => if sub = bad then .error (.msg "boom") else .ok sub
  doneCloses := fun _ => true

/-- An environment of `NewService` in which every constructor succeeds. -/
def healthyStart : StartEnv StartErr Subsystem where
  start := fun sub => .ok sub
  doneCloses := fun _ => true


/-- An environment of `run` in which `sub`, and nothing else, has terminated
while the run-loop waits, no shutdown is requested, and every subsystem
completes after cancellation. -/
def onlyTerminated (sub : Subsystem) : RunEnv where
  shutdownRequested := false
  terminated := fun j => decide (j = sub)
  completes := fun _ => true

/-! ### A cluster with revisions

Used to run `applyNetPolicies` on an input where the fetched object, the
object the builder's `Update` computes and the desired object all differ.  An
object is a name with a revision number. -/

/-- A remote API that stores names; `Get` of a stored name answers the object
at revision 7, `Create` and `Update` accept any object. -/
def revisionKube : KubeInterface (List String) (String × Nat) Nat where
  Get := fun _ _ name s => if name ∈ s then (.ok (name, 7), s) else (.error 404, s)
  Create := fun _ _ obj s => (.ok obj, obj.1 :: s)
  Update := fun _ _ obj s => (.ok obj, s)

/-- A network-policy builder whose desired list is the names `pols` at
revision 0 and whose `Update` bumps the revision of the object it is given. -/
def bumpNetPol (ns : String) (pols : List String) :
    NetPolBuilder (List String) (String × Nat) Nat where
  NS := ns
  Create := fun s => (.ok (pols.map (fun name => (name, 0))), s)
  Update := fun cur s => (.ok (cur.1, cur.2 + 1), s)

/-! ## Theorems -/

section ReconcilerTheorems

variable {σ Obj ε : Type}

/-- C1. On each of the five single-object appliers: when the get of the
builder's name returns a not-found error and the builder's `Create` succeeds
with `obj`, the applier makes exactly one get, exactly one create call, which
carries `obj`, and no update call (the remote calls are, in order, that get and
that create; the only builder call is `Create`), and it returns exactly the
error of that create call. -/
theorem apply_notFound_creates (a : Applier) (isNotFound : ε → Bool)
    (kc : KubeInterface σ Obj ε) (b : Builder σ Obj ε) (w : World σ (Event Obj ε))
    (e : ε) (s1 s2 : σ) (obj : Obj)
    (hget : kc.Get a.resource (a.nsOf b) b.Name w.env = (Except.error e, s1))
    (hnf : isNotFound e = true)
    (hcreate : b.Create s1 = (Except.ok obj, s2)) :
    let out := a.run isNotFound kc b w
    let res := kc.Create a.resource (a.nsOf b) obj s2
    (newEvents w out.2).filter Event.isRemote
        = [Event.get a.resource (a.nsOf b) b.Name (some e),
           Event.create a.resource (a.nsOf b) obj (errOf res.1)]
    ∧ (newEvents w out.2).filter Event.isBuilder = [Event.builderCreate]
    ∧ (newEvents w out.2).countP Event.isGet = 1
    ∧ (newEvents w out.2).countP Event.isCreate = 1
    ∧ (newEvents w out.2).countP Event.isUpdate = 0
    ∧ out.1 = errOf res.1
    ∧ out.2.env = res.2 := by
  cases a <;>
    simp [Applier.run, Applier.resource, Applier.nsOf, applyNS, applyDeployment,
      applyStatefulSet, applyService, applyManifest, kGet, kCreate, bCreate,
      incCounter, incCounterFiltered, World.log, newEvents, errOf, Event.isRemote,
      Event.isGet, Event.isCreate, Event.isUpdate, Event.isBuilder, hnf, hcreate,
      List.filter_cons, List.countP_cons] at hget ⊢ <;>
    simp [hget, hnf, hcreate, errOf, Event.isRemote, Event.isGet, Event.isCreate,
      Event.isUpdate, Event.isBuilder, List.filter_cons, List.countP_cons]

/-- C1 at a concrete input: `applyNS` for "lease-123" on the empty in-memory
cluster makes one get (404) and one create, and returns `nil`. -/
theorem apply_notFound_creates_witness :
    (newEvents (World.mk [] []) (applyNS fakeIsNotFound fakeKube
        (fakeBuilder "" "lease-123") (World.mk [] [])).2).filter Event.isRemote
      = [Event.get Resource.namespaces "" "lease-123" (some 404),
         Event.create Resource.namespaces "" "lease-123" none]
    ∧ (applyNS fakeIsNotFound fakeKube (fakeBuilder "" "lease-123") (World.mk [] [])).1
      = none :=
  have h := apply_notFound_creates Applier.ns fakeIsNotFound fakeKube
    (fakeBuilder "" "lease-123") (World.mk [] []) 404 [] [] "lease-123" rfl rfl rfl
  ⟨h.1, h.2.2.2.2.2.1⟩

/-- C2. On each of the five single-object appliers: when the get succeeds with
`cur` and the builder's `Update` succeeds on `cur` with `obj`, the applier makes
exactly one get, exactly one update call, which carries `obj`, and no create
call (the remote calls are, in order, that get and that update; the only
builder call is `Update cur`), and it returns exactly the error of that update
call.  Nothing is assumed about `obj` and `cur`: the update is issued also when
they are equal. -/
theorem apply_found_updates (a : Applier) (isNotFound : ε → Bool)
    (kc : KubeInterface σ Obj ε) (b : Builder σ Obj ε) (w : World σ (Event Obj ε))
    (s1 s2 : σ) (cur obj : Obj)
    (hget : kc.Get a.resource (a.nsOf b) b.Name w.env = (Except.ok cur, s1))
    (hupdate : b.Update cur s1 = (Except.ok obj, s2)) :
    let out := a.run isNotFound kc b w
    let res := kc.Update a.resource (a.nsOf b) obj s2
    (newEvents w out.2).filter Event.isRemote
        = [Event.get a.resource (a.nsOf b) b.Name none,
           Event.update a.resource (a.nsOf b) obj (errOf res.1)]
    ∧ (newEvents w out.2).filter Event.isBuilder = [Event.builderUpdate cur]
    ∧ (newEvents w out.2).countP Event.isGet = 1
    ∧ (newEvents w out.2).countP Event.isUpdate = 1
    ∧ (newEvents w out.2).countP Event.isCreate = 0
    ∧ out.1 = errOf res.1
    ∧ out.2.env = res.2 := by
  cases a <;>
    simp [Applier.run, Applier.resource, Applier.nsOf, applyNS, applyDeployment,
      applyStatefulSet, applyService, applyManifest, kGet, kUpdate, bUpdate,
      incCounter, incCounterFiltered, World.log, newEvents, errOf, Event.isRemote,
      Event.isGet, Event.isCreate, Event.isUpdate, Event.isBuilder, hupdate,
      List.filter_cons, List.countP_cons] at hget ⊢ <;>
    simp [hget, hupdate, errOf, Event.isRemote, Event.isGet, Event.isCreate,
      Event.isUpdate, Event.isBuilder, List.filter_cons, List.countP_cons]

/-- C2 at a concrete input: `applyManifest` on a cluster that already stores
"m1", with a builder whose `Update` returns the current object unchanged, still
issues the update call. -/
theorem apply_found_updates_witness :
    (newEvents (World.mk ["m1"] []) (applyManifest fakeIsNotFound fakeKube
        (fakeBuilder "ns1" "m1") (World.mk ["m1"] [])).2).filter Event.isRemote
      = [Event.get Resource.manifests "ns1" "m1" none,
         Event.update Resource.manifests "ns1" "m1" none]
    ∧ (applyManifest fakeIsNotFound fakeKube (fakeBuilder "ns1" "m1")
        (World.mk ["m1"] [])).1 = none :=
  have h := apply_found_updates Applier.manifest fakeIsNotFound fakeKube
    (fakeBuilder "ns1" "m1") (World.mk ["m1"] []) ["m1"] ["m1"] "m1" "m1"
    (by simp [fakeKube, fakeBuilder, Applier.resource, Applier.nsOf]) rfl
  ⟨h.1, h.2.2.2.2.2.1⟩

/-- C3. On each of the five single-object appliers: when the get fails with an
error that is not a not-found error, the applier calls neither `Create` nor
`Update` of the builder, makes no create and no update remote call, makes no
second get (the get is its only remote call), and returns that same error. -/
theorem apply_get_error_returned (a : Applier) (isNotFound : ε → Bool)
    (kc : KubeInterface σ Obj ε) (b : Builder σ Obj ε) (w : World σ (Event Obj ε))
    (e : ε) (s1 : σ)
    (hget : kc.Get a.resource (a.nsOf b) b.Name w.env = (Except.error e, s1))
    (hnf : isNotFound e = false) :
    let out := a.run isNotFound kc b w
    out.1 = some e
    ∧ (newEvents w out.2).filter Event.isRemote
        = [Event.get a.resource (a.nsOf b) b.Name (some e)]
    ∧ (newEvents w out.2).filter Event.isBuilder = []
    ∧ (newEvents w out.2).countP Event.isGet = 1
    ∧ (newEvents w out.2).countP Event.isCreate = 0
    ∧ (newEvents w out.2).countP Event.isUpdate = 0
    ∧ out.2.env = s1 := by
  cases a <;>
    simp [Applier.run, Applier.resource, Applier.nsOf, applyNS, applyDeployment,
      applyStatefulSet, applyService, applyManifest, kGet,
      incCounter, incCounterFiltered, World.log, newEvents, errOf, Event.isRemote,
      Event.isGet, Event.isCreate, Event.isUpdate, Event.isBuilder, hnf,
      List.filter_cons, List.countP_cons] at hget ⊢ <;>
    simp [hget, hnf, errOf, Event.isRemote, Event.isGet, Event.isCreate,
      Event.isUpdate, Event.isBuilder, List.filter_cons, List.countP_cons]

/-- C3 at a concrete input: `applyStatefulSet` against a remote API that answers
500 returns 500 after a single get. -/
theorem apply_get_error_returned_witness :
    (applyStatefulSet fakeIsNotFound brokenKube (fakeBuilder "ns1" "web")
        (World.mk [] [])).1 = some 500
    ∧ (newEvents (World.mk [] []) (applyStatefulSet fakeIsNotFound brokenKube
        (fakeBuilder "ns1" "web") (World.mk [] [])).2).filter Event.isRemote
      = [Event.get Resource.statefulSets "ns1" "web" (some 500)] :=
  have h := apply_get_error_returned Applier.statefulSet fakeIsNotFound brokenKube
    (fakeBuilder "ns1" "web") (World.mk [] []) 500 [] rfl rfl
  ⟨h.1, h.2.1⟩

/-! ### The network-policy list -/

/-- One iteration of the loop only appends to the trace; the remote calls it
appends have the shape of an applied member when the loop-scoped `err` ends
`nil`, and of a failed member otherwise. -/
theorem netPolBody_spec (isNotFound : ε → Bool) (nameOf : Obj → String)
    (kc : KubeInterface σ Obj ε) (b : NetPolBuilder σ Obj ε) (pol : Obj)
    (w : World σ (Event Obj ε)) :
    ∃ t, (netPolBody isNotFound nameOf kc b pol w).2.trace = w.trace ++ t ∧
      ((netPolBody isNotFound nameOf kc b pol w).1 = none →
        memberApplied isNotFound nameOf b.NS pol (t.filter Event.isRemote)) ∧
      (∀ e, (netPolBody isNotFound nameOf kc b pol w).1 = some e →
        memberFailed isNotFound nameOf b.NS pol e (t.filter Event.isRemote)) := by
  unfold netPolBody
  rcases hg : kc.Get .networkPolicies b.NS (nameOf pol) w.env with ⟨rg, sg⟩
  cases rg with
  | error e0 =>
    by_cases hnf : isNotFound e0 = true
    · rcases hc : kc.Create .networkPolicies b.NS pol sg with ⟨rc, sc⟩
      cases rc with
      | error e1 =>
        refine ⟨[Event.get .networkPolicies b.NS (nameOf pol) (some e0),
          Event.metric "networking-policies-get" (some e0) true,
          Event.create .networkPolicies b.NS pol (some e1),
          Event.metric "networking-policies-create" (some e1) false], ?_, ?_, ?_⟩
        · simp [kGet, kCreate, hg, hc, hnf, incCounter, incCounterFiltered, World.log, errOf]
        · simp [kGet, kCreate, hg, hc, hnf, incCounter, incCounterFiltered, World.log, errOf]
        · intro e he
          simp [kGet, kCreate, hg, hc, hnf, incCounter, incCounterFiltered, World.log,
            errOf] at he
          subst he
          right; right; left
          exact ⟨e0, hnf, by simp [Event.isRemote, Event.isGet, Event.isCreate,
            Event.isUpdate, List.filter_cons]⟩
      | ok o1 =>
        refine ⟨[Event.get .networkPolicies b.NS (nameOf pol) (some e0),
          Event.metric "networking-policies-get" (some e0) true,
          Event.create .networkPolicies b.NS pol none,
          Event.metric "networking-policies-create" none false], ?_, ?_, ?_⟩
        · simp [kGet, kCreate, hg, hc, hnf, incCounter, incCounterFiltered, World.log, errOf]
        · intro _
          left
          exact ⟨e0, hnf, by simp [Event.isRemote, Event.isGet, Event.isCreate,
            Event.isUpdate, List.filter_cons]⟩
        · simp [kGet, kCreate, hg, hc, hnf, incCounter, incCounterFiltered, World.log, errOf]
    · have hnf' : isNotFound e0 = false := by simpa using hnf
      refine ⟨[Event.get .networkPolicies b.NS (nameOf pol) (some e0),
          Event.metric "networking-policies-get" (some e0) true], ?_, ?_, ?_⟩
      · simp [kGet, hg, hnf', incCounterFiltered, World.log, errOf]
      · simp [kGet, hg, hnf', incCounterFiltered, World.log, errOf]
      · intro e he
        simp [kGet, hg, hnf', incCounterFiltered, World.log, errOf] at he
        subst he
        left
        exact ⟨hnf', by simp [Event.isRemote, Event.isGet, Event.isCreate,
            Event.isUpdate, List.filter_cons]⟩
  | ok cur =>
    rcases hu : b.Update cur sg with ⟨ru, su⟩
    cases ru with
    | error e1 =>
      refine ⟨[Event.get .networkPolicies b.NS (nameOf pol) none,
          Event.metric "networking-policies-get" none true,
          Event.builderUpdate cur], ?_, ?_, ?_⟩
      · simp [kGet, npUpdate, hg, hu, incCounterFiltered, World.log, errOf]
      · simp [kGet, npUpdate, hg, hu, incCounterFiltered, World.log, errOf]
      · intro e _
        right; left
        simp [Event.isRemote, Event.isGet, Event.isCreate, Event.isUpdate, List.filter_cons]
    | ok o1 =>
      rcases hc : kc.Update .networkPolicies b.NS pol su with ⟨rc, sc⟩
      cases rc with
      | error e2 =>
        refine ⟨[Event.get .networkPolicies b.NS (nameOf pol) none,
          Event.metric "networking-policies-get" none true,
          Event.builderUpdate cur,
          Event.update .networkPolicies b.NS pol (some e2),
          Event.metric "networking-policies-update" (some e2) false], ?_, ?_, ?_⟩
        · simp [kGet, kUpdate, npUpdate, hg, hu, hc, incCounter, incCounterFiltered,
            World.log, errOf]
        · simp [kGet, kUpdate, npUpdate, hg, hu, hc, incCounter, incCounterFiltered,
            World.log, errOf]
        · intro e he
          simp [kGet, kUpdate, npUpdate, hg, hu, hc, incCounter, incCounterFiltered,
            World.log, errOf] at he
          subst he
          right; right; right
          simp [Event.isRemote, Event.isGet, Event.isCreate, Event.isUpdate, List.filter_cons]
      | ok o2 =>
        refine ⟨[Event.get .networkPolicies b.NS (nameOf pol) none,
          Event.metric "networking-policies-get" none true,
          Event.builderUpdate cur,
          Event.update .networkPolicies b.NS pol none,
          Event.metric "networking-policies-update" none false], ?_, ?_, ?_⟩
        · simp [kGet, kUpdate, npUpdate, hg, hu, hc, incCounter, incCounterFiltered,
            World.log, errOf]
        · intro _
          right
          simp [Event.isRemote, Event.isGet, Event.isCreate, Event.isUpdate, List.filter_cons]
        · simp [kGet, kUpdate, npUpdate, hg, hu, hc, incCounter, incCounterFiltered,
            World.log, errOf]

/-- The loop, run on a list of members that all apply, continues with whatever
follows them. -/
theorem netPolLoop_append (isNotFound : ε → Bool) (nameOf : Obj → String)
    (kc : KubeInterface σ Obj ε) (b : NetPolBuilder σ Obj ε) (pre rest : List Obj)
    (w wk : World σ (Event Obj ε))
    (hpre : netPolLoop isNotFound nameOf kc b pre w = (none, wk)) :
    netPolLoop isNotFound nameOf kc b (pre ++ rest) w
      = netPolLoop isNotFound nameOf kc b rest wk := by
  induction pre generalizing w with
  | nil =>
    simp [netPolLoop] at hpre
    simp [hpre]
  | cons pol pre ih =>
    rcases hb : netPolBody isNotFound nameOf kc b pol w with ⟨r, w1⟩
    cases r with
    | some e => simp [netPolLoop, hb] at hpre
    | none =>
      simp only [netPolLoop, hb] at hpre
      simp only [List.cons_append, netPolLoop, hb]
      exact ih w1 hpre

/-- When the loop ends with a `nil` loop-scoped `err`, it has only appended to
the trace, and its remote calls are those of applying every member in list
order. -/
theorem netPolLoop_applied (isNotFound : ε → Bool) (nameOf : Obj → String)
    (kc : KubeInterface σ Obj ε) (b : NetPolBuilder σ Obj ε) (pols : List Obj)
    (w wk : World σ (Event Obj ε))
    (h : netPolLoop isNotFound nameOf kc b pols w = (none, wk)) :
    ∃ t, wk.trace = w.trace ++ t ∧
      appliedInOrder isNotFound nameOf b.NS pols (t.filter Event.isRemote) := by
  induction pols generalizing w with
  | nil =>
    simp [netPolLoop] at h
    exact ⟨[], by simp [h], by simp [appliedInOrder]⟩
  | cons pol pols ih =>
    rcases hb : netPolBody isNotFound nameOf kc b pol w with ⟨r, w1⟩
    cases r with
    | some e => simp [netPolLoop, hb] at h
    | none =>
      simp only [netPolLoop, hb] at h
      obtain ⟨t1, ht1, happ, _⟩ := netPolBody_spec isNotFound nameOf kc b pol w
      rw [hb] at ht1 happ
      obtain ⟨t2, ht2, hrest⟩ := ih w1 h
      refine ⟨t1 ++ t2, ?_, ?_⟩
      · rw [ht2, ht1, List.append_assoc]
      · rw [List.filter_append]
        exact ⟨_, _, rfl, happ rfl, hrest⟩

/-- The remote calls of `k` applied members hold exactly `k` gets and exactly
`k` writes that returned `nil`. -/
theorem appliedInOrder_counts (isNotFound : ε → Bool) (nameOf : Obj → String)
    (ns : String) (pols : List Obj) (calls : List (Event Obj ε))
    (h : appliedInOrder isNotFound nameOf ns pols calls) :
    calls.countP Event.isGet = pols.length ∧
      calls.countP Event.isAppliedWrite = pols.length := by
  induction pols generalizing calls with
  | nil =>
    simp [appliedInOrder] at h
    simp [h]
  | cons pol pols ih =>
    obtain ⟨c1, c2, hc, h1, h2⟩ := h
    obtain ⟨hg, hw⟩ := ih c2 h2
    subst hc
    rcases h1 with ⟨e0, _, h1⟩ | h1 <;> subst h1 <;>
      simp [List.countP_cons, Event.isGet, Event.isAppliedWrite, hg, hw]

/-- The remote calls of a failed member hold exactly one get and no write that
returned `nil`. -/
theorem memberFailed_counts (isNotFound : ε → Bool) (nameOf : Obj → String)
    (ns : String) (pol : Obj) (e : ε) (calls : List (Event Obj ε))
    (h : memberFailed isNotFound nameOf ns pol e calls) :
    calls.countP Event.isGet = 1 ∧ calls.countP Event.isAppliedWrite = 0 := by
  rcases h with ⟨_, h⟩ | h | ⟨e0, _, h⟩ | h <;> subst h <;>
    simp [List.countP_cons, Event.isGet, Event.isAppliedWrite]

/-- Counting gets is not affected by dropping the events that are not remote
calls. -/
theorem countP_isGet_filter_isRemote (l : List (Event Obj ε)) :
    (l.filter Event.isRemote).countP Event.isGet = l.countP Event.isGet := by
  induction l with
  | nil => rfl
  | cons x l ih =>
    cases x <;>
      simp [List.filter_cons, List.countP_cons, Event.isRemote, Event.isGet,
        Event.isCreate, Event.isUpdate, ih]

/-- Counting successful writes is not affected by dropping the events that are
not remote calls. -/
theorem countP_isAppliedWrite_filter_isRemote (l : List (Event Obj ε)) :
    (l.filter Event.isRemote).countP Event.isAppliedWrite
      = l.countP Event.isAppliedWrite := by
  induction l with
  | nil => rfl
  | cons x l ih =>
    cases x <;>
      simp [List.filter_cons, List.countP_cons, Event.isRemote, Event.isGet,
        Event.isCreate, Event.isUpdate, Event.isAppliedWrite, ih]

/-- When the remote API and the builder let the member `pol` apply, the
iteration on `pol` ends with a `nil` loop-scoped `err`, leaves the state they
left, and makes exactly their remote calls. -/
theorem netPolBody_of_memberApplies (isNotFound : ε → Bool) (nameOf : Obj → String)
    (kc : KubeInterface σ Obj ε) (b : NetPolBuilder σ Obj ε) (pol : Obj)
    (w : World σ (Event Obj ε)) (calls : List (Event Obj ε)) (s' : σ)
    (h : memberApplies isNotFound nameOf kc b pol w.env calls s') :
    ∃ t, netPolBody isNotFound nameOf kc b pol w
        = (none, { env := s', trace := w.trace ++ t })
      ∧ t.filter Event.isRemote = calls := by
  rcases h with ⟨e0, s1, o, hg, hnf, hc, rfl⟩ | ⟨cur, s1, u, s2, o, hg, hu, hc, rfl⟩
  · refine ⟨[Event.get .networkPolicies b.NS (nameOf pol) (some e0),
      Event.metric "networking-policies-get" (some e0) true,
      Event.create .networkPolicies b.NS pol none,
      Event.metric "networking-policies-create" none false], ?_, ?_⟩
    · simp [netPolBody, kGet, kCreate, hg, hnf, hc, incCounter, incCounterFiltered,
        World.log, errOf]
    · simp [List.filter_cons, Event.isRemote, Event.isGet, Event.isCreate, Event.isUpdate]
  · refine ⟨[Event.get .networkPolicies b.NS (nameOf pol) none,
      Event.metric "networking-policies-get" none true,
      Event.builderUpdate cur,
      Event.update .networkPolicies b.NS pol none,
      Event.metric "networking-policies-update" none false], ?_, ?_⟩
    · simp [netPolBody, kGet, kUpdate, npUpdate, hg, hu, hc, incCounter,
        incCounterFiltered, World.log, errOf]
    · simp [List.filter_cons, Event.isRemote, Event.isGet, Event.isCreate, Event.isUpdate]

/-- When the remote API and the builder make the apply of the member `pol` fail
with `e`, the iteration on `pol` ends with the loop-scoped `err` equal to `e`,
leaves the state they left, and makes exactly their remote calls. -/
theorem netPolBody_of_memberFails (isNotFound : ε → Bool) (nameOf : Obj → String)
    (kc : KubeInterface σ Obj ε) (b : NetPolBuilder σ Obj ε) (pol : Obj)
    (w : World σ (Event Obj ε)) (e : ε) (calls : List (Event Obj ε)) (s' : σ)
    (h : memberFails isNotFound nameOf kc b pol w.env e calls s') :
    ∃ t, netPolBody isNotFound nameOf kc b pol w
        = (some e, { env := s', trace := w.trace ++ t })
      ∧ t.filter Event.isRemote = calls := by
  rcases h with ⟨hg, hnf, rfl⟩ | ⟨cur, s1, hg, hu, rfl⟩ | ⟨e0, s1, hg, hnf, hc, rfl⟩
    | ⟨cur, s1, u, s2, hg, hu, hc, rfl⟩
  · refine ⟨[Event.get .networkPolicies b.NS (nameOf pol) (some e),
      Event.metric "networking-policies-get" (some e) true], ?_, ?_⟩
    · simp [netPolBody, kGet, hg, hnf, incCounterFiltered, World.log, errOf]
    · simp [List.filter_cons, Event.isRemote, Event.isGet, Event.isCreate, Event.isUpdate]
  · refine ⟨[Event.get .networkPolicies b.NS (nameOf pol) none,
      Event.metric "networking-policies-get" none true,
      Event.builderUpdate cur], ?_, ?_⟩
    · simp [netPolBody, kGet, npUpdate, hg, hu, incCounterFiltered, World.log, errOf]
    · simp [List.filter_cons, Event.isRemote, Event.isGet, Event.isCreate, Event.isUpdate]
  · refine ⟨[Event.get .networkPolicies b.NS (nameOf pol) (some e0),
      Event.metric "networking-policies-get" (some e0) true,
      Event.create .networkPolicies b.NS pol (some e),
      Event.metric "networking-policies-create" (some e) false], ?_, ?_⟩
    · simp [netPolBody, kGet, kCreate, hg, hnf, hc, incCounter, incCounterFiltered,
        World.log, errOf]
    · simp [List.filter_cons, Event.isRemote, Event.isGet, Event.isCreate, Event.isUpdate]
  · refine ⟨[Event.get .networkPolicies b.NS (nameOf pol) none,
      Event.metric "networking-policies-get" none true,
      Event.builderUpdate cur,
      Event.update .networkPolicies b.NS pol (some e),
      Event.metric "networking-policies-update" (some e) false], ?_, ?_⟩
    · simp [netPolBody, kGet, kUpdate, npUpdate, hg, hu, hc, incCounter,
        incCounterFiltered, World.log, errOf]
    · simp [List.filter_cons, Event.isRemote, Event.isGet, Event.isCreate, Event.isUpdate]

/-- When the remote API and the builder let the members of `pols` apply in list
order, the loop on `pols` ends with a `nil` loop-scoped `err`, leaves the state
they left, and makes exactly their remote calls. -/
theorem netPolLoop_of_membersApply (isNotFound : ε → Bool) (nameOf : Obj → String)
    (kc : KubeInterface σ Obj ε) (b : NetPolBuilder σ Obj ε) (pols : List Obj)
    (w : World σ (Event Obj ε)) (calls : List (Event Obj ε)) (s' : σ)
    (h : membersApply isNotFound nameOf kc b pols w.env calls s') :
    ∃ t, netPolLoop isNotFound nameOf kc b pols w
        = (none, { env := s', trace := w.trace ++ t })
      ∧ t.filter Event.isRemote = calls := by
  induction pols generalizing w calls with
  | nil =>
    obtain ⟨rfl, rfl⟩ := h
    exact ⟨[], by simp [netPolLoop], rfl⟩
  | cons pol pols ih =>
    obtain ⟨c1, s1, c2, h1, h2, rfl⟩ := h
    obtain ⟨t1, hb, hf1⟩ := netPolBody_of_memberApplies isNotFound nameOf kc b pol w c1 s1 h1
    obtain ⟨t2, hl, hf2⟩ := ih { env := s1, trace := w.trace ++ t1 } c2 h2
    refine ⟨t1 ++ t2, ?_, ?_⟩
    · simp only [netPolLoop, hb, hl, List.append_assoc]
    · rw [List.filter_append, hf1, hf2]

/-- The remote calls of a member that the remote API and the builder let apply
have the shape of an applied member. -/
theorem memberApplied_of_memberApplies (isNotFound : ε → Bool) (nameOf : Obj → String)
    (kc : KubeInterface σ Obj ε) (b : NetPolBuilder σ Obj ε) (pol : Obj) (s : σ)
    (calls : List (Event Obj ε)) (s' : σ)
    (h : memberApplies isNotFound nameOf kc b pol s calls s') :
    memberApplied isNotFound nameOf b.NS pol calls := by
  rcases h with ⟨e0, s1, o, _, hnf, _, rfl⟩ | ⟨cur, s1, u, s2, o, _, _, _, rfl⟩
  · exact Or.inl ⟨e0, hnf, rfl⟩
  · exact Or.inr rfl

/-- The remote calls of members that the remote API and the builder let apply
in list order are those of applied members, in list order. -/
theorem appliedInOrder_of_membersApply (isNotFound : ε → Bool) (nameOf : Obj → String)
    (kc : KubeInterface σ Obj ε) (b : NetPolBuilder σ Obj ε) (pols : List Obj) (s : σ)
    (calls : List (Event Obj ε)) (s' : σ)
    (h : membersApply isNotFound nameOf kc b pols s calls s') :
    appliedInOrder isNotFound nameOf b.NS pols calls := by
  induction pols generalizing s calls with
  | nil => exact h.1
  | cons pol pols ih =>
    obtain ⟨c1, s1, c2, h1, h2, rfl⟩ := h
    exact ⟨c1, c2, rfl,
      memberApplied_of_memberApplies isNotFound nameOf kc b pol s c1 s1 h1, ih s1 c2 h2⟩

/-- The remote calls of a member whose apply the remote API and the builder
make fail have the shape of a failed member. -/
theorem memberFailed_of_memberFails (isNotFound : ε → Bool) (nameOf : Obj → String)
    (kc : KubeInterface σ Obj ε) (b : NetPolBuilder σ Obj ε) (pol : Obj) (s : σ)
    (e : ε) (calls : List (Event Obj ε)) (s' : σ)
    (h : memberFails isNotFound nameOf kc b pol s e calls s') :
    memberFailed isNotFound nameOf b.NS pol e calls := by
  rcases h with ⟨_, hnf, rfl⟩ | ⟨cur, s1, _, _, rfl⟩ | ⟨e0, s1, _, hnf, _, rfl⟩
    | ⟨cur, s1, u, s2, _, _, _, rfl⟩
  · exact Or.inl ⟨hnf, rfl⟩
  · exact Or.inr (Or.inl rfl)
  · exact Or.inr (Or.inr (Or.inl ⟨e0, hnf, rfl⟩))
  · exact Or.inr (Or.inr (Or.inr rfl))

/-- C5. Let the builder's `Create` answer the list `pre ++ polk :: post` (so
`polk` is member `k = pre.length + 1`), leaving the state `s0`.  Let the remote
API and the builder, from `s0`, let the members of `pre` apply in list order
(for each, the get answers not-found and the create succeeds, or the get
answers an object, the builder's `Update` succeeds and the update succeeds),
with remote calls `callsPre`, leaving the state `sk`; and let them make the
apply of `polk` fail with `e` from `sk` (the get fails with another error, or
the builder's `Update` fails, or the create or update fails), with remote
calls `callsK`, leaving the state `sf`.  Then `applyNetPolicies` leaves the
state `sf`, and the remote calls it made are exactly `callsPre` followed by
`callsK`: for each member of `pre`, in list order, one get followed by one
successful create or update of that member, then the calls of `polk`, and no
call for a member of `post` and no call after the failure.  They hold `k` gets
and `k - 1` writes that returned `nil`.  The world it ends in is the one the
failing iteration left. -/
theorem applyNetPolicies_stops_at_first_failure (isNotFound : ε → Bool)
    (nameOf : Obj → String) (kc : KubeInterface σ Obj ε) (b : NetPolBuilder σ Obj ε)
    (pre : List Obj) (polk : Obj) (post : List Obj) (w : World σ (Event Obj ε))
    (s0 sk sf : σ) (callsPre callsK : List (Event Obj ε)) (e : ε)
    (hcreate : b.Create w.env = (Except.ok (pre ++ polk :: post), s0))
    (hpre : membersApply isNotFound nameOf kc b pre s0 callsPre sk)
    (hk : memberFails isNotFound nameOf kc b polk sk e callsK sf) :
    let out := applyNetPolicies isNotFound nameOf kc b w
    out.2.env = sf
    ∧ (newEvents w out.2).filter Event.isRemote = callsPre ++ callsK
    ∧ appliedInOrder isNotFound nameOf b.NS pre callsPre
    ∧ memberFailed isNotFound nameOf b.NS polk e callsK
    ∧ (newEvents w out.2).countP Event.isGet = pre.length + 1
    ∧ (newEvents w out.2).countP Event.isAppliedWrite = pre.length
    ∧ out.2 = (netPolBody isNotFound nameOf kc b polk
        (netPolLoop isNotFound nameOf kc b pre (npCreate b w).2).2).2 := by
  have hnp : npCreate b w
      = (Except.ok (pre ++ polk :: post),
          { env := s0, trace := w.trace ++ [Event.builderCreate] }) := by
    simp [npCreate, hcreate]
  obtain ⟨t1, hl, hf1⟩ := netPolLoop_of_membersApply isNotFound nameOf kc b pre
    { env := s0, trace := w.trace ++ [Event.builderCreate] } callsPre sk hpre
  obtain ⟨t2, hb, hf2⟩ := netPolBody_of_memberFails isNotFound nameOf kc b polk
    { env := sk, trace := w.trace ++ [Event.builderCreate] ++ t1 } e callsK sf hk
  have hloop : netPolLoop isNotFound nameOf kc b (pre ++ polk :: post)
      { env := s0, trace := w.trace ++ [Event.builderCreate] }
      = (some e, { env := sf, trace := w.trace ++ [Event.builderCreate] ++ t1 ++ t2 }) := by
    rw [netPolLoop_append isNotFound nameOf kc b pre (polk :: post) _ _ hl]
    simp only [netPolLoop, hb]
  have hout : applyNetPolicies isNotFound nameOf kc b w
      = (none, { env := sf, trace := w.trace ++ [Event.builderCreate] ++ t1 ++ t2 }) := by
    simp [applyNetPolicies, hnp, hloop, errOf]
  have happ := appliedInOrder_of_membersApply isNotFound nameOf kc b pre s0 callsPre sk hpre
  have hfail := memberFailed_of_memberFails isNotFound nameOf kc b polk sk e callsK sf hk
  have hnew : newEvents w (applyNetPolicies isNotFound nameOf kc b w).2
      = Event.builderCreate :: (t1 ++ t2) := by
    simp [newEvents, hout]
  have hfilter : (newEvents w (applyNetPolicies isNotFound nameOf kc b w).2).filter
      Event.isRemote = callsPre ++ callsK := by
    rw [hnew, ← hf1, ← hf2]
    simp [List.filter_cons, Event.isRemote, Event.isGet, Event.isCreate, Event.isUpdate]
  obtain ⟨hg1, hw1⟩ := appliedInOrder_counts isNotFound nameOf b.NS pre _ happ
  obtain ⟨hg2, hw2⟩ := memberFailed_counts isNotFound nameOf b.NS polk e _ hfail
  refine ⟨by rw [hout], hfilter, happ, hfail, ?_, ?_, ?_⟩
  · rw [← countP_isGet_filter_isRemote, hfilter, List.countP_append, hg1, hg2]
  · rw [← countP_isAppliedWrite_filter_isRemote, hfilter, List.countP_append, hw1, hw2]
    rfl
  · rw [hout, hnp, hl, hb]

/-- C5 at a concrete input: the list p1, p2, p3 on an empty cluster on which
every call for p2 fails with 500.  The get of p1 answers 404 and its create
succeeds, the get of p2 answers 500: `applyNetPolicies` leaves the cluster
holding p1 alone, after the get and the create of p1 and the get of p2. -/
theorem applyNetPolicies_stops_at_first_failure_witness :
    (applyNetPolicies fakeIsNotFound id (flakyKube "p2")
        (fakeNetPol "ns1" ["p1", "p2", "p3"]) (World.mk [] [])).2.env = ["p1"]
    ∧ (newEvents (World.mk [] []) (applyNetPolicies fakeIsNotFound id (flakyKube "p2")
        (fakeNetPol "ns1" ["p1", "p2", "p3"]) (World.mk [] [])).2).filter Event.isRemote
      = [Event.get Resource.networkPolicies "ns1" "p1" (some 404),
         Event.create Resource.networkPolicies "ns1" "p1" none]
        ++ [Event.get Resource.networkPolicies "ns1" "p2" (some 500)] :=
  have h := applyNetPolicies_stops_at_first_failure fakeIsNotFound id (flakyKube "p2")
    (fakeNetPol "ns1" ["p1", "p2", "p3"]) ["p1"] "p2" ["p3"] (World.mk [] [])
    [] ["p1"] ["p1"]
    [Event.get Resource.networkPolicies "ns1" "p1" (some 404),
     Event.create Resource.networkPolicies "ns1" "p1" none]
    [Event.get Resource.networkPolicies "ns1" "p2" (some 500)]
    500
    (by simp [fakeNetPol])
    ⟨_, ["p1"], [],
      Or.inl ⟨404, [], "p1", by simp [flakyKube, fakeKube, fakeNetPol],
        by simp [fakeIsNotFound], by simp [flakyKube, fakeKube, fakeNetPol], rfl⟩,
      ⟨rfl, rfl⟩, rfl⟩
    (Or.inl ⟨by simp [flakyKube, fakeNetPol], by simp [fakeIsNotFound], rfl⟩)
  ⟨h.1, h.2.1⟩

/-- Whatever the loop does, `applyNetPolicies` returns the error of the
builder's `Create`: `nil` whenever `Create` succeeded. -/
theorem applyNetPolicies_returns_create_error (isNotFound : ε → Bool)
    (nameOf : Obj → String) (kc : KubeInterface σ Obj ε) (b : NetPolBuilder σ Obj ε)
    (w : World σ (Event Obj ε)) :
    (applyNetPolicies isNotFound nameOf kc b w).1 = errOf (b.Create w.env).1 := by
  rcases hc : b.Create w.env with ⟨rc, sc⟩
  cases rc <;> simp [applyNetPolicies, npCreate, hc, errOf]

/-- C4 (what the code does). The list p1, p2, p3 on an empty cluster on which
every call for p2 fails with 500: after p1 is applied, the iteration on p2
fails, its loop-scoped `err` is 500, and `applyNetPolicies` returns `nil`. -/
theorem applyNetPolicies_returns_nil_on_member_failure :
    (netPolLoop fakeIsNotFound id (flakyKube "p2") (fakeNetPol "ns1" ["p1", "p2", "p3"])
        ["p1"] (World.mk [] [Event.builderCreate])).1 = none
    ∧ (netPolBody fakeIsNotFound id (flakyKube "p2") (fakeNetPol "ns1" ["p1", "p2", "p3"])
        "p2" (netPolLoop fakeIsNotFound id (flakyKube "p2")
          (fakeNetPol "ns1" ["p1", "p2", "p3"]) ["p1"]
          (World.mk [] [Event.builderCreate])).2).1 = some 500
    ∧ (applyNetPolicies fakeIsNotFound id (flakyKube "p2")
        (fakeNetPol "ns1" ["p1", "p2", "p3"]) (World.mk [] [])).1 = none := by
  refine ⟨?_, ?_, ?_⟩
  · simp [netPolLoop, netPolBody, kGet, kCreate, flakyKube, fakeKube, fakeNetPol,
      fakeIsNotFound, incCounter, incCounterFiltered, World.log, errOf]
  · simp [netPolLoop, netPolBody, kGet, kCreate, flakyKube, fakeKube, fakeNetPol,
      fakeIsNotFound, incCounter, incCounterFiltered, World.log, errOf]
  · simp [applyNetPolicies, npCreate, fakeNetPol, errOf]

end ReconcilerTheorems

/-! ### `Validate` -/

section ValidateTheorems

variable {σ Inv RG R P G Price ε H : Type}

/-- C6. For every supervisor, owner, group spec and starting world, with `inv`
the answer of `Inventory`, `adj` the answer of the dry-run `Adjust` on the
snapshot and `pr` the answer of `CalculatePrice`:
`CalculatePrice` is invoked (once, with the request built from owner and group
spec) if and only if `Inventory` and `Adjust` both succeeded; when `Inventory`
fails, or `Adjust` fails, `Validate` returns that error with the empty result
and `CalculatePrice` is invoked zero times; when `CalculatePrice` fails its
error is returned; otherwise `MinBidPrice` is the price it returned.  `Adjust`
is never called without the dry-run option. -/
theorem Validate_gates_pricing [Inhabited Price]
    (s : service (Config σ G Price ε) (ClusterClient σ Inv RG R P ε) H)
    (owner : Address) (gspec : G) (w : World σ (SvcEvent RG R P G ε)) :
    let out := s.Validate owner gspec w
    let ev := newEvents w out.2
    let req : Request G := { Owner := owner.str, GSpec := gspec }
    let res : reservation RG R P :=
      { resources := none, adjustedResources := [], clusterParams := none }
    let inv := s.cclient.Inventory w.env
    ev.countP SvcEvent.isCommittingAdjust = 0
    ∧ (ev.countP SvcEvent.isCalculatePrice = 1 ↔
        ∃ i, inv.1 = Except.ok i ∧ (s.cclient.Adjust i res true inv.2).1 = none)
    ∧ match inv.1 with
      | Except.error e =>
        out.1 = (ValidateGroupSpecResult.empty, some e)
        ∧ ev.countP SvcEvent.isCalculatePrice = 0
        ∧ ev.countP SvcEvent.isAdjust = 0
      | Except.ok i =>
        let adj := s.cclient.Adjust i res true inv.2
        match adj.1 with
        | some e =>
          out.1 = (ValidateGroupSpecResult.empty, some e)
          ∧ ev.countP SvcEvent.isCalculatePrice = 0
        | none =>
          let pr := s.config.BidPricingStrategy.CalculatePrice req adj.2
          ev.filter SvcEvent.isCalculatePrice = [SvcEvent.calculatePrice req (errOf pr.1)]
          ∧ match pr.1 with
            | Except.error e => out.1 = (ValidateGroupSpecResult.empty, some e)
            | Except.ok price => out.1 = ({ MinBidPrice := price }, none) := by
  rcases hi : s.cclient.Inventory w.env with ⟨ri, si⟩
  cases ri with
  | error e =>
    simp [service.Validate, callInventory, hi, newEvents, errOf, List.countP_cons,
      SvcEvent.isCommittingAdjust, SvcEvent.isCalculatePrice, SvcEvent.isAdjust]
  | ok i =>
    rcases ha : s.cclient.Adjust i
      { resources := none, adjustedResources := [], clusterParams := none } true si
      with ⟨ra, sa⟩
    cases ra with
    | some e =>
      simp [service.Validate, callInventory, callAdjust, hi, ha, newEvents, errOf,
        List.countP_cons, SvcEvent.isCommittingAdjust, SvcEvent.isCalculatePrice,
        SvcEvent.isAdjust]
    | none =>
      rcases hp : s.config.BidPricingStrategy.CalculatePrice
        { Owner := owner.str, GSpec := gspec } sa with ⟨rp, sp⟩
      cases rp with
      | error e =>
        simp [service.Validate, callInventory, callAdjust, callCalculatePrice, hi, ha, hp,
          newEvents, errOf, List.countP_cons, List.filter_cons,
          SvcEvent.isCommittingAdjust, SvcEvent.isCalculatePrice, SvcEvent.isAdjust]
      | ok price =>
        simp [service.Validate, callInventory, callAdjust, callCalculatePrice, hi, ha, hp,
          newEvents, errOf, List.countP_cons, List.filter_cons,
          SvcEvent.isCommittingAdjust, SvcEvent.isCalculatePrice, SvcEvent.isAdjust]

/-- Whatever the group spec, every `Adjust` that `Validate` calls is handed a
reservation whose `Resources()` is `nil`. -/
theorem Validate_adjust_carries_no_demand [Inhabited Price]
    (s : service (Config σ G Price ε) (ClusterClient σ Inv RG R P ε) H)
    (owner : Address) (gspec : G) (w : World σ (SvcEvent RG R P G ε)) :
    (newEvents w (s.Validate owner gspec w).2).countP SvcEvent.carriesDemand = 0 := by
  rcases hi : s.cclient.Inventory w.env with ⟨ri, si⟩
  cases ri with
  | error e =>
    simp [service.Validate, callInventory, hi, newEvents, List.countP_cons,
      SvcEvent.carriesDemand]
  | ok i =>
    rcases ha : s.cclient.Adjust i
      { resources := none, adjustedResources := [], clusterParams := none } true si
      with ⟨ra, sa⟩
    cases ra with
    | some e =>
      simp [service.Validate, callInventory, callAdjust, hi, ha, newEvents,
        List.countP_cons, SvcEvent.carriesDemand, reservation.Resources]
    | none =>
      rcases hp : s.config.BidPricingStrategy.CalculatePrice
        { Owner := owner.str, GSpec := gspec } sa with ⟨rp, sp⟩
      cases rp <;>
        simp [service.Validate, callInventory, callAdjust, callCalculatePrice, hi, ha, hp,
          newEvents, List.countP_cons, SvcEvent.carriesDemand, reservation.Resources]

/-- C7 (what the code does). On an inventory with 10 CPU whose dry-run `Adjust`
rejects exactly the reservations that demand more CPU than that, the snapshot
rejects a reservation carrying a demand of 1000 CPU; yet `Validate` of a group
spec demanding 1000 CPU returns a `nil` error with a price, after one call of
`CalculatePrice`: the reservation it hands to `Adjust` has `nil` resources. -/
theorem Validate_ignores_gspec_demand :
    ((capacityClient 10).Adjust 10
        { resources := some 1000, adjustedResources := [], clusterParams := none }
        true ()).1 = some errInsufficientCapacity
    ∧ ((capacityService 10).Validate (Address.mk "owner") 1000 (World.mk () [])).1
        = ({ MinBidPrice := 1000 }, none)
    ∧ ((capacityService 10).Validate (Address.mk "owner") 1000 (World.mk () [])).2.trace
        = [SvcEvent.inventory none,
           SvcEvent.adjust
             { resources := none, adjustedResources := [], clusterParams := none } true none,
           SvcEvent.calculatePrice { Owner := "owner", GSpec := 1000 } none] := by
  refine ⟨?_, ?_, ?_⟩ <;>
    simp [service.Validate, callInventory, callAdjust, callCalculatePrice, capacityService,
      capacityClient, unitPricing, cpuDemand, reservation.Resources, errOf,
      errInsufficientCapacity]

end ValidateTheorems

/-! ### `NewService` and `run` -/

section SupervisorTheorems

variable {ε H Cfg CC : Type}

/-- C8. `NewService` calls the constructors in the order balance checker,
cluster service, bid engine, manifest service.  If the stages before `k` start
and stage `k` fails with `e`: the constructors called are exactly those of the
stages up to `k`, in order; `cancel()` is called exactly once, no receive from
a completion channel precedes it and only such receives follow it; if the
function returns, it returns `(nil, err)` with `err` being `e` or a wrapping of
`e`, the receives made after `cancel()` are those of exactly the stages
before `k`, and the completion channel of every stage before `k` did get
closed; and it does return when the completion channels of these stages get
closed.  If all four stages start, it returns the service built from the
four handles, with a `nil` error, and `cancel()` is not called. -/
theorem NewService_startup (wrap : ε → String → ε) (env : StartEnv ε H)
    (cclient : CC) (cfg : Cfg) :
    (∀ (k : Subsystem) (e : ε),
        (∀ j, j.stage < k.stage → errOf (env.start j) = none) →
        env.start k = Except.error e →
        let out := NewService wrap env cclient cfg
        out.2.filterMap StartEvent.started
            = startOrder.filter (fun j => decide (j.stage ≤ k.stage))
        ∧ out.2.countP StartEvent.isCancel = 1
        ∧ (beforeCancel out.2).countP StartEvent.isAwait = 0
        ∧ (afterCancel out.2).all StartEvent.isAwait = true
        ∧ (∀ r, out.1 = some r →
            (r = Except.error e ∨ ∃ msg, r = Except.error (wrap e msg))
            ∧ (∀ j, j ∈ (afterCancel out.2).filterMap StartEvent.awaited
                ↔ j.stage < k.stage)
            ∧ ∀ j, j.stage < k.stage → env.doneCloses j = true)
        ∧ ((∀ j, j.stage < k.stage → env.doneCloses j = true) → out.1 ≠ none))
    ∧ ((∀ j, errOf (env.start j) = none) →
        ∃ bc cl be mf,
          env.start .balanceChecker = Except.ok bc
          ∧ env.start .cluster = Except.ok cl
          ∧ env.start .bidengine = Except.ok be
          ∧ env.start .manifest = Except.ok mf
          ∧ NewService wrap env cclient cfg
            = (some (Except.ok { config := cfg, cclient := cclient, cluster := cl,
                                  bidengine := be, manifest := mf, bc := bc }),
               [StartEvent.start .balanceChecker none, StartEvent.start .cluster none,
                StartEvent.start .bidengine none, StartEvent.start .manifest none,
                StartEvent.goWatchContext, StartEvent.goRun])) := by
  constructor
  · intro k e hprev hk
    cases k with
    | balanceChecker =>
      simp only [NewService, hk]
      refine ⟨by simp [StartEvent.started, startOrder, Subsystem.stage, List.filter_cons],
        by simp [StartEvent.isCancel, List.countP_cons],
        by simp [beforeCancel, StartEvent.isCancel, StartEvent.isAwait, List.takeWhile_cons],
        by simp [afterCancel, StartEvent.isCancel, List.dropWhile_cons], ?_, by simp⟩
      intro r hr
      simp only [Option.some.injEq] at hr
      refine ⟨Or.inl hr.symm, ?_, ?_⟩
      swap
      · intro j hj
        cases j <;>
          (first | exact hd1 | exact hd2 | exact hd3 | (simp [Subsystem.stage] at hj))
      intro j
      cases j <;>
        simp [afterCancel, StartEvent.isCancel, List.dropWhile_cons, Subsystem.stage]
    | cluster =>
      have h1 := hprev .balanceChecker (by decide)
      rcases hb : env.start .balanceChecker with e1 | bc
      · simp [errOf, hb] at h1
      by_cases hd1 : env.doneCloses .balanceChecker = true
      · simp only [NewService, hb, hk, awaitStarted, hd1]
        refine ⟨by simp [StartEvent.started, startOrder, Subsystem.stage, List.filter_cons],
          by simp [StartEvent.isCancel, List.countP_cons],
          by simp [beforeCancel, StartEvent.isCancel, StartEvent.isAwait, List.takeWhile_cons],
          by simp [afterCancel, StartEvent.isCancel, StartEvent.isAwait, List.dropWhile_cons],
          ?_, by simp⟩
        intro r hr
        simp only [if_true, Option.some.injEq] at hr
        refine ⟨Or.inl hr.symm, ?_, ?_⟩
        swap
        · intro j hj
          cases j <;>
            (first | exact hd1 | exact hd2 | exact hd3 | (simp [Subsystem.stage] at hj))
        intro j
        cases j <;>
          simp [afterCancel, StartEvent.isCancel, StartEvent.awaited, List.dropWhile_cons,
            Subsystem.stage]
      · simp only [NewService, hb, hk, awaitStarted, hd1]
        refine ⟨by simp [StartEvent.started, startOrder, Subsystem.stage, List.filter_cons],
          by simp [StartEvent.isCancel, List.countP_cons],
          by simp [beforeCancel, StartEvent.isCancel, StartEvent.isAwait, List.takeWhile_cons],
          by simp [afterCancel, StartEvent.isCancel, StartEvent.isAwait, List.dropWhile_cons],
          by simp, ?_⟩
        intro hall
        exact absurd (hall .balanceChecker (by decide)) hd1
    | bidengine =>
      have h1 := hprev .balanceChecker (by decide)
      have h2 := hprev .cluster (by decide)
      rcases hb : env.start .balanceChecker with e1 | bc
      · simp [errOf, hb] at h1
      rcases hc : env.start .cluster with e2 | cl
      · simp [errOf, hc] at h2
      by_cases hd2 : env.doneCloses .cluster = true
      swap
      · simp only [NewService, hb, hc, hk, awaitStarted, hd2]
        refine ⟨by simp [StartEvent.started, startOrder, Subsystem.stage, List.filter_cons],
          by simp [StartEvent.isCancel, List.countP_cons],
          by simp [beforeCancel, StartEvent.isCancel, StartEvent.isAwait, List.takeWhile_cons],
          by simp [afterCancel, StartEvent.isCancel, StartEvent.isAwait, List.dropWhile_cons],
          by simp, ?_⟩
        intro hall
        exact absurd (hall .cluster (by decide)) hd2
      by_cases hd1 : env.doneCloses .balanceChecker = true
      swap
      · simp only [NewService, hb, hc, hk, awaitStarted, hd2, hd1]
        refine ⟨by simp [StartEvent.started, startOrder, Subsystem.stage, List.filter_cons],
          by simp [StartEvent.isCancel, List.countP_cons],
          by simp [beforeCancel, StartEvent.isCancel, StartEvent.isAwait, List.takeWhile_cons],
          by simp [afterCancel, StartEvent.isCancel, StartEvent.isAwait, List.dropWhile_cons],
          by simp, ?_⟩
        intro hall
        exact absurd (hall .balanceChecker (by decide)) hd1
      · simp only [NewService, hb, hc, hk, awaitStarted, hd2, hd1]
        refine ⟨by simp [StartEvent.started, startOrder, Subsystem.stage, List.filter_cons],
          by simp [StartEvent.isCancel, List.countP_cons],
          by simp [beforeCancel, StartEvent.isCancel, StartEvent.isAwait, List.takeWhile_cons],
          by simp [afterCancel, StartEvent.isCancel, StartEvent.isAwait, List.dropWhile_cons],
          ?_, by simp⟩
        intro r hr
        simp only [if_true, Option.some.injEq] at hr
        refine ⟨Or.inr ⟨_, hr.symm⟩, ?_, ?_⟩
        swap
        · intro j hj
          cases j <;>
            (first | exact hd1 | exact hd2 | exact hd3 | (simp [Subsystem.stage] at hj))
        intro j
        cases j <;>
          simp [afterCancel, StartEvent.isCancel, StartEvent.awaited, List.dropWhile_cons,
            Subsystem.stage]
    | manifest =>
      have h1 := hprev .balanceChecker (by decide)
      have h2 := hprev .cluster (by decide)
      have h3 := hprev .bidengine (by decide)
      rcases hb : env.start .balanceChecker with e1 | bc
      · simp [errOf, hb] at h1
      rcases hc : env.start .cluster with e2 | cl
      · simp [errOf, hc] at h2
      rcases hbe : env.start .bidengine with e3 | be
      · simp [errOf, hbe] at h3
      by_cases hd2 : env.doneCloses .cluster = true
      swap
      · simp only [NewService, hb, hc, hbe, hk, awaitStarted, hd2]
        refine ⟨by simp [StartEvent.started, startOrder, Subsystem.stage, List.filter_cons],
          by simp [StartEvent.isCancel, List.countP_cons],
          by simp [beforeCancel, StartEvent.isCancel, StartEvent.isAwait, List.takeWhile_cons],
          by simp [afterCancel, StartEvent.isCancel, StartEvent.isAwait, List.dropWhile_cons],
          by simp, ?_⟩
        intro hall
        exact absurd (hall .cluster (by decide)) hd2
      by_cases hd3 : env.doneCloses .bidengine = true
      swap
      · simp only [NewService, hb, hc, hbe, hk, awaitStarted, hd2, hd3]
        refine ⟨by simp [StartEvent.started, startOrder, Subsystem.stage, List.filter_cons],
          by simp [StartEvent.isCancel, List.countP_cons],
          by simp [beforeCancel, StartEvent.isCancel, StartEvent.isAwait, List.takeWhile_cons],
          by simp [afterCancel, StartEvent.isCancel, StartEvent.isAwait, List.dropWhile_cons],
          by simp, ?_⟩
        intro hall
        exact absurd (hall .bidengine (by decide)) hd3
      by_cases hd1 : env.doneCloses .balanceChecker = true
      swap
      · simp only [NewService, hb, hc, hbe, hk, awaitStarted, hd2, hd3, hd1]
        refine ⟨by simp [StartEvent.started, startOrder, Subsystem.stage, List.filter_cons],
          by simp [StartEvent.isCancel, List.countP_cons],
          by simp [beforeCancel, StartEvent.isCancel, StartEvent.isAwait, List.takeWhile_cons],
          by simp [afterCancel, StartEvent.isCancel, StartEvent.isAwait, List.dropWhile_cons],
          by simp, ?_⟩
        intro hall
        exact absurd (hall .balanceChecker (by decide)) hd1
      · simp only [NewService, hb, hc, hbe, hk, awaitStarted, hd2, hd3, hd1]
        refine ⟨by simp [StartEvent.started, startOrder, Subsystem.stage, List.filter_cons],
          by simp [StartEvent.isCancel, List.countP_cons],
          by simp [beforeCancel, StartEvent.isCancel, StartEvent.isAwait, List.takeWhile_cons],
          by simp [afterCancel, StartEvent.isCancel, StartEvent.isAwait, List.dropWhile_cons],
          ?_, by simp⟩
        intro r hr
        simp only [if_true, Option.some.injEq] at hr
        refine ⟨Or.inl hr.symm, ?_, ?_⟩
        swap
        · intro j hj
          cases j <;>
            (first | exact hd1 | exact hd2 | exact hd3 | (simp [Subsystem.stage] at hj))
        intro j
        cases j <;>
          simp [afterCancel, StartEvent.isCancel, StartEvent.awaited, List.dropWhile_cons,
            Subsystem.stage]
  · intro hall
    have h1 := hall .balanceChecker
    have h2 := hall .cluster
    have h3 := hall .bidengine
    have h4 := hall .manifest
    rcases hb : env.start .balanceChecker with e1 | bc
    · simp [errOf, hb] at h1
    rcases hc : env.start .cluster with e2 | cl
    · simp [errOf, hc] at h2
    rcases hbe : env.start .bidengine with e3 | be
    · simp [errOf, hbe] at h3
    rcases hm : env.start .manifest with e4 | mf
    · simp [errOf, hm] at h4
    exact ⟨bc, cl, be, mf, rfl, rfl, rfl, rfl, by simp [NewService, hb, hc, hbe, hm]⟩

/-- C8 at concrete inputs: with a bid engine that fails to start, `NewService`
calls `cancel()` once and returns, and the completion channels of the cluster
service and of the balance checker did close; with four subsystems that start,
it returns the service. -/
theorem NewService_startup_witness :
    ((NewService StartErr.wrapped (failingStart .bidengine) () ()).2.countP
        StartEvent.isCancel = 1
      ∧ (NewService StartErr.wrapped (failingStart .bidengine) () ()).1 ≠ none
      ∧ (failingStart .bidengine).doneCloses .cluster = true
      ∧ (failingStart .bidengine).doneCloses .balanceChecker = true)
    ∧ ∃ bc cl be mf,
        healthyStart.start .balanceChecker = Except.ok bc
        ∧ healthyStart.start .cluster = Except.ok cl
        ∧ healthyStart.start .bidengine = Except.ok be
        ∧ healthyStart.start .manifest = Except.ok mf
        ∧ NewService StartErr.wrapped healthyStart () ()
          = (some (Except.ok { config := (), cclient := (), cluster := cl,
                                bidengine := be, manifest := mf, bc := bc }),
             [StartEvent.start .balanceChecker none, StartEvent.start .cluster none,
              StartEvent.start .bidengine none, StartEvent.start .manifest none,
              StartEvent.goWatchContext, StartEvent.goRun]) :=
  have h := (NewService_startup StartErr.wrapped (failingStart .bidengine) () ()).1
    .bidengine (.msg "boom")
    (by intro j; cases j <;> simp [failingStart, errOf, Subsystem.stage])
    (by simp [failingStart])
  have hret : (NewService StartErr.wrapped (failingStart .bidengine) () ()).1
      = some (Except.error (.wrapped (.msg "boom") "creating bidengine service")) := by
    simp [NewService, awaitStarted, failingStart]
  have hdone := (h.2.2.2.2.1 _ hret).2.2
  ⟨⟨h.2.1, h.2.2.2.2.2 (by simp [failingStart]), hdone .cluster (by decide),
      hdone .balanceChecker (by decide)⟩,
    (NewService_startup StartErr.wrapped healthyStart () ()).2
      (by intro j; simp [healthyStart, errOf])⟩

/-- The executions of `run` are: blocked in the `select` when no case is
readable, and otherwise the continuation after any readable case. -/
theorem mem_run (env : RunEnv) (r : RunResult) :
    r ∈ run env ↔
      ((∀ wk ∈ selectCases, env.ready wk = false) ∧ r = { returned := false, trace := [] })
      ∨ ∃ wk ∈ selectCases, env.ready wk = true ∧ r = runAfterWake env wk := by
  unfold run
  rcases hf : selectCases.filter env.ready with _ | ⟨wk0, wks⟩
  · have hnone : ∀ wk ∈ selectCases, env.ready wk = false := by
      intro wk hwk
      have := List.filter_eq_nil_iff.mp hf wk hwk
      simpa using this
    constructor
    · intro hr
      left
      exact ⟨hnone, by simpa using hr⟩
    · rintro (⟨_, hr⟩ | ⟨wk, hwk, hready, _⟩)
      · simp [hr]
      · rw [hnone wk hwk] at hready
        cases hready
  · have hmem : ∀ wk, wk ∈ wk0 :: wks ↔ wk ∈ selectCases ∧ env.ready wk = true := by
      intro wk
      rw [← hf, List.mem_filter]
    constructor
    · intro hr
      right
      obtain ⟨wk, hwk, rfl⟩ := List.mem_map.mp hr
      exact ⟨wk, ((hmem wk).mp hwk).1, ((hmem wk).mp hwk).2, rfl⟩
    · rintro (⟨hnone, _⟩ | ⟨wk, hwk, hready, rfl⟩)
      · have h0 := (hmem wk0).mp (List.mem_cons_self _ _)
        rw [hnone wk0 h0.1] at h0
        cases h0.2
      · exact List.mem_map.mpr ⟨wk, (hmem wk).mpr ⟨hwk, hready⟩, rfl⟩

/-- The continuation of `run` after a wake-up either returns, and then every
completion channel was closed and the trace is the full shutdown sequence, or
stays blocked in a receive, and then `ShutdownCompleted` is not in the trace
and some completion channel never closes. -/
theorem runAfterWake_spec (env : RunEnv) (wk : Wake) :
    ((runAfterWake env wk).returned = true
      ∧ (∀ sub, env.closes sub = true)
      ∧ (runAfterWake env wk).trace
        = [RunEvent.wake wk, .shutdownInitiated, .cancel, .awaitDone .cluster,
           .awaitDone .bidengine, .awaitDone .manifest, .awaitDone .balanceChecker,
           .logInfo "shutdown complete", .shutdownCompleted])
    ∨ ((runAfterWake env wk).returned = false
      ∧ (runAfterWake env wk).trace.countP RunEvent.isShutdownCompleted = 0
      ∧ ∃ sub, env.closes sub = false) := by
  by_cases h1 : env.closes .cluster = true
  swap
  · right
    simp only [Bool.not_eq_true] at h1
    exact ⟨by simp [runAfterWake, awaitSub, h1],
      by simp [runAfterWake, awaitSub, h1, List.countP_cons, RunEvent.isShutdownCompleted],
      _, h1⟩
  by_cases h2 : env.closes .bidengine = true
  swap
  · right
    simp only [Bool.not_eq_true] at h2
    exact ⟨by simp [runAfterWake, awaitSub, h1, h2],
      by simp [runAfterWake, awaitSub, h1, h2, List.countP_cons,
        RunEvent.isShutdownCompleted],
      _, h2⟩
  by_cases h3 : env.closes .manifest = true
  swap
  · right
    simp only [Bool.not_eq_true] at h3
    exact ⟨by simp [runAfterWake, awaitSub, h1, h2, h3],
      by simp [runAfterWake, awaitSub, h1, h2, h3, List.countP_cons,
        RunEvent.isShutdownCompleted],
      _, h3⟩
  by_cases h4 : env.closes .balanceChecker = true
  swap
  · right
    simp only [Bool.not_eq_true] at h4
    exact ⟨by simp [runAfterWake, awaitSub, h1, h2, h3, h4],
      by simp [runAfterWake, awaitSub, h1, h2, h3, h4, List.countP_cons,
        RunEvent.isShutdownCompleted],
      _, h4⟩
  left
  refine ⟨by simp [runAfterWake, awaitSub, h1, h2, h3, h4], ?_,
    by simp [runAfterWake, awaitSub, h1, h2, h3, h4]⟩
  intro sub
  cases sub <;> assumption

/-- Whatever happens afterwards, the continuation of `run` after a wake-up
begins with `ShutdownInitiated` and `cancel()`. -/
theorem runAfterWake_begins (env : RunEnv) (wk : Wake) :
    ∃ rest, (runAfterWake env wk).trace
      = RunEvent.wake wk :: RunEvent.shutdownInitiated :: RunEvent.cancel :: rest := by
  by_cases h1 : env.closes .cluster = true <;>
    by_cases h2 : env.closes .bidengine = true <;>
    by_cases h3 : env.closes .manifest = true <;>
    by_cases h4 : env.closes .balanceChecker = true <;>
    simp [runAfterWake, awaitSub, h1, h2, h3, h4]

/-- Some case of the `select` is readable exactly when a shutdown is requested
or one of cluster service, bid engine, manifest service has terminated. -/
theorem select_ready_iff (env : RunEnv) :
    (∃ wk ∈ selectCases, env.ready wk = true) ↔
      (env.shutdownRequested = true ∨ env.terminated .cluster = true
        ∨ env.terminated .bidengine = true ∨ env.terminated .manifest = true) := by
  simp [selectCases, RunEnv.ready]

/-- C9. In every environment: each of the four wake-up events (explicit
shutdown request, cluster done, bid engine done, manifest done), when it
occurs, starts an execution of `run`.  In every execution of `run`,
`ShutdownCompleted` (which fires `Done()`) is signalled at most once; it is
signalled exactly once precisely when `run` returns, which is precisely when
one of the four wake-up events occurred and the completion channels of all
four subsystems are or get closed; and then the trace is: the wake-up, one of
those four, `ShutdownInitiated`, `cancel()`, the completions of cluster, bid
engine, manifest and balance checker observed in that order, the log line,
and `ShutdownCompleted` last. -/
theorem run_done_once_after_all (env : RunEnv) :
    (env.shutdownRequested = true → runAfterWake env .shutdownRequest ∈ run env)
    ∧ (env.terminated .cluster = true → runAfterWake env (.done .cluster) ∈ run env)
    ∧ (env.terminated .bidengine = true → runAfterWake env (.done .bidengine) ∈ run env)
    ∧ (env.terminated .manifest = true → runAfterWake env (.done .manifest) ∈ run env)
    ∧ ∀ r ∈ run env,
        r.trace.countP RunEvent.isShutdownCompleted ≤ 1
        ∧ (r.trace.countP RunEvent.isShutdownCompleted = 1 ↔ r.returned = true)
        ∧ (r.trace.countP RunEvent.isShutdownCompleted = 1 ↔
            (env.shutdownRequested = true ∨ env.terminated .cluster = true
              ∨ env.terminated .bidengine = true ∨ env.terminated .manifest = true)
            ∧ ∀ sub, env.closes sub = true)
        ∧ (r.returned = true →
            ∃ wk, (wk = Wake.shutdownRequest ∧ env.shutdownRequested = true
                  ∨ wk = Wake.done .cluster ∧ env.terminated .cluster = true
                  ∨ wk = Wake.done .bidengine ∧ env.terminated .bidengine = true
                  ∨ wk = Wake.done .manifest ∧ env.terminated .manifest = true)
              ∧ r.trace
                = [RunEvent.wake wk, .shutdownInitiated, .cancel, .awaitDone .cluster,
                   .awaitDone .bidengine, .awaitDone .manifest, .awaitDone .balanceChecker,
                   .logInfo "shutdown complete", .shutdownCompleted]) := by
  refine ⟨?_, ?_, ?_, ?_, ?_⟩
  · intro h
    exact (mem_run env _).mpr
      (Or.inr ⟨_, by simp [selectCases], by simpa [RunEnv.ready] using h, rfl⟩)
  · intro h
    exact (mem_run env _).mpr
      (Or.inr ⟨_, by simp [selectCases], by simpa [RunEnv.ready] using h, rfl⟩)
  · intro h
    exact (mem_run env _).mpr
      (Or.inr ⟨_, by simp [selectCases], by simpa [RunEnv.ready] using h, rfl⟩)
  · intro h
    exact (mem_run env _).mpr
      (Or.inr ⟨_, by simp [selectCases], by simpa [RunEnv.ready] using h, rfl⟩)
  · intro r hr
    rcases (mem_run env r).mp hr with ⟨hnone, rfl⟩ | ⟨wk, hwk, hready, rfl⟩
    · have hno : ¬ (env.shutdownRequested = true ∨ env.terminated .cluster = true
          ∨ env.terminated .bidengine = true ∨ env.terminated .manifest = true) := by
        intro h
        obtain ⟨wk, hwk, hready⟩ := (select_ready_iff env).mpr h
        rw [hnone wk hwk] at hready
        cases hready
      refine ⟨by simp, by simp, ?_, by simp⟩
      constructor
      · intro h
        simp at h
      · intro h
        exact absurd h.1 hno
    · have hwoken := (select_ready_iff env).mp ⟨wk, hwk, hready⟩
      rcases runAfterWake_spec env wk with ⟨hret, hall, htr⟩ | ⟨hret, hcount, sub, hsub⟩
      · rw [htr, hret]
        refine ⟨by simp [List.countP_cons, RunEvent.isShutdownCompleted],
          by simp [List.countP_cons, RunEvent.isShutdownCompleted], ?_, ?_⟩
        · constructor
          · intro _
            exact ⟨hwoken, hall⟩
          · intro _
            simp [List.countP_cons, RunEvent.isShutdownCompleted]
        · intro _
          refine ⟨wk, ?_, rfl⟩
          simp only [selectCases, List.mem_cons, List.mem_singleton, List.not_mem_nil,
            or_false] at hwk
          rcases hwk with rfl | rfl | rfl | rfl
          · exact Or.inl ⟨rfl, by simpa [RunEnv.ready] using hready⟩
          · exact Or.inr (Or.inl ⟨rfl, by simpa [RunEnv.ready] using hready⟩)
          · exact Or.inr (Or.inr (Or.inl ⟨rfl, by simpa [RunEnv.ready] using hready⟩))
          · exact Or.inr (Or.inr (Or.inr ⟨rfl, by simpa [RunEnv.ready] using hready⟩))
      · rw [hcount, hret]
        refine ⟨by simp, by simp, ?_, by simp⟩
        constructor
        · intro h
          simp at h
        · intro h
          rw [h.2 sub] at hsub
          cases hsub

/-- C9 at a concrete input: the bid engine alone has terminated and every
subsystem completes after cancellation; the execution of `run` woken by the
bid engine signals `ShutdownCompleted` exactly once and returns. -/
theorem run_done_once_after_all_witness :
    runAfterWake (onlyTerminated .bidengine) (.done .bidengine)
      ∈ run (onlyTerminated .bidengine)
    ∧ (runAfterWake (onlyTerminated .bidengine) (.done .bidengine)).trace.countP
        RunEvent.isShutdownCompleted = 1
    ∧ (runAfterWake (onlyTerminated .bidengine) (.done .bidengine)).returned = true :=
  have h := run_done_once_after_all (onlyTerminated .bidengine)
  have hmem := h.2.2.1 (by simp [onlyTerminated])
  have hall := h.2.2.2.2 _ hmem
  have hone := hall.2.2.1.mpr
    ⟨Or.inr (Or.inr (Or.inl (by simp [onlyTerminated]))),
      by intro sub; simp [RunEnv.closes, onlyTerminated]⟩
  ⟨hmem, hone, hall.2.1.mp hone⟩

/-- C10 (amended). For each of the three subsystems the `select` of `run`
watches, the cluster service, the bid engine and the manifest service: when
that subsystem alone terminates while the run-loop waits, every execution of
`run` initiates shutdown and fires the shared cancellation. -/
theorem run_wakes_on_watched_subsystem (sub : Subsystem)
    (hsub : sub ≠ Subsystem.balanceChecker) : wakesRunLoop sub := by
  intro env hreq honly r hr
  rcases (mem_run env r).mp hr with ⟨hnone, _⟩ | ⟨wk, _, _, rfl⟩
  · have hmem : Wake.done sub ∈ selectCases := by
      cases sub <;> simp [selectCases] at hsub ⊢
    have hready := hnone (.done sub) hmem
    simp only [RunEnv.ready] at hready
    rw [(honly sub).mpr rfl] at hready
    cases hready
  · obtain ⟨rest, htr⟩ := runAfterWake_begins env wk
    rw [htr]
    simp

/-- C10 (amended) at a concrete input: the cluster service alone has
terminated. -/
theorem run_wakes_on_watched_subsystem_witness :
    run (onlyTerminated .cluster) = [runAfterWake (onlyTerminated .cluster) (.done .cluster)]
    ∧ RunEvent.shutdownInitiated
        ∈ (runAfterWake (onlyTerminated .cluster) (.done .cluster)).trace
    ∧ RunEvent.cancel ∈ (runAfterWake (onlyTerminated .cluster) (.done .cluster)).trace :=
  have hrun : run (onlyTerminated .cluster)
      = [runAfterWake (onlyTerminated .cluster) (.done .cluster)] := by
    simp [run, selectCases, RunEnv.ready, onlyTerminated, List.filter_cons]
  ⟨hrun,
    run_wakes_on_watched_subsystem .cluster (by decide) (onlyTerminated .cluster) rfl
      (by intro j; simp [onlyTerminated])
      (runAfterWake (onlyTerminated .cluster) (.done .cluster)) (by rw [hrun]; simp)⟩

/-- C10 (as stated, refuted). When the balance checker alone has terminated
while the run-loop waits, no case of the `select` is readable: the one
execution of `run` stays blocked with an empty trace, so shutdown is not
initiated and the cancellation is not fired. -/
theorem run_blocked_when_only_balanceChecker_terminated :
    run (onlyTerminated .balanceChecker) = [{ returned := false, trace := [] }]
    ∧ ¬ wakesRunLoop .balanceChecker := by
  have hrun : run (onlyTerminated .balanceChecker) = [{ returned := false, trace := [] }] := by
    simp [run, selectCases, RunEnv.ready, onlyTerminated, List.filter_cons]
  refine ⟨hrun, ?_⟩
  intro h
  have h' := h (onlyTerminated .balanceChecker) rfl (by intro j; simp [onlyTerminated])
    { returned := false, trace := [] } (by rw [hrun]; simp)
  simp at h'

end SupervisorTheorems

/-! ### `Status` -/

section StatusTheorems

variable {σ H CS BS MS G Price CC ε : Type}

/-- C11. `Status` queries the sub-statuses of cluster, bid engine and manifest
in that order and stops at the first failure.  With `c`, `b`, `mf` the answers
of the three queries: if the cluster query fails with `e`, `Status` returns
`(nil, e)` and nothing else was queried; if it succeeds and the bid-engine
query fails with `e`, `Status` returns `(nil, e)` and the manifest was not
queried; if both succeed and the manifest query fails with `e`, `Status`
returns `(nil, e)`; if the three succeed, it returns a `nil` error and the
status holding exactly the three sub-statuses and the configured
`ClusterPublicHostname`.  A non-nil status and a non-nil error are never
returned together. -/
theorem Status_stops_at_first_failure (s : service (Config σ G Price ε) CC H)
    (m : StatusMethods σ H CS BS MS ε) (w : World σ (StatusEvent ε)) :
    let out := s.Status m w
    let ev := newEvents w out.2
    let c := m.cluster s.cluster w.env
    ¬ (out.1.1.isSome = true ∧ out.1.2.isSome = true)
    ∧ match c.1 with
      | Except.error e =>
        out.1 = (none, some e)
        ∧ ev = [StatusEvent.status .cluster (some e)]
      | Except.ok cs =>
        let b := m.bidengine s.bidengine c.2
        match b.1 with
        | Except.error e =>
          out.1 = (none, some e)
          ∧ ev = [StatusEvent.status .cluster none, StatusEvent.status .bidengine (some e)]
        | Except.ok bs =>
          let mf := m.manifest s.manifest b.2
          match mf.1 with
          | Except.error e =>
            out.1 = (none, some e)
            ∧ ev = [StatusEvent.status .cluster none, StatusEvent.status .bidengine none,
                    StatusEvent.status .manifest (some e)]
          | Except.ok ms =>
            out.1 = (some { Cluster := cs, Bidengine := bs, Manifest := ms,
                            ClusterPublicHostname := s.config.ClusterPublicHostname }, none)
            ∧ ev = [StatusEvent.status .cluster none, StatusEvent.status .bidengine none,
                    StatusEvent.status .manifest none] := by
  rcases hc : m.cluster s.cluster w.env with ⟨rc, sc⟩
  cases rc with
  | error e => simp [service.Status, callStatus, hc, newEvents, errOf]
  | ok cs =>
    rcases hb : m.bidengine s.bidengine sc with ⟨rb, sb⟩
    cases rb with
    | error e => simp [service.Status, callStatus, hc, hb, newEvents, errOf]
    | ok bs =>
      rcases hm : m.manifest s.manifest sb with ⟨rm, sm⟩
      cases rm with
      | error e => simp [service.Status, callStatus, hc, hb, hm, newEvents, errOf]
      | ok ms => simp [service.Status, callStatus, hc, hb, hm, newEvents, errOf]

end StatusTheorems

/-! ### The update call of the network-policy list -/

section NetPolUpdateTheorems

variable {σ Obj ε : Type}

/-- For a member `pol` whose get succeeds with `cur` and on which the builder's
`Update` succeeds with `obj`, the iteration calls `Update cur` and then issues
one update call, and that call carries `pol`, whatever `obj` is. -/
theorem netPolBody_update_carries_pol (isNotFound : ε → Bool) (nameOf : Obj → String)
    (kc : KubeInterface σ Obj ε) (b : NetPolBuilder σ Obj ε) (pol cur obj : Obj)
    (w : World σ (Event Obj ε)) (s1 s2 : σ)
    (hget : kc.Get .networkPolicies b.NS (nameOf pol) w.env = (Except.ok cur, s1))
    (hupdate : b.Update cur s1 = (Except.ok obj, s2)) :
    let out := netPolBody isNotFound nameOf kc b pol w
    let res := kc.Update .networkPolicies b.NS pol s2
    (newEvents w out.2).filter Event.isRemote
        = [Event.get .networkPolicies b.NS (nameOf pol) none,
           Event.update .networkPolicies b.NS pol (errOf res.1)]
    ∧ (newEvents w out.2).filter Event.isBuilder = [Event.builderUpdate cur]
    ∧ out.1 = errOf res.1 := by
  simp [netPolBody, kGet, kUpdate, npUpdate, hget, hupdate, incCounter, incCounterFiltered,
    World.log, newEvents, errOf, Event.isRemote, Event.isGet, Event.isCreate,
    Event.isUpdate, Event.isBuilder, List.filter_cons]

/-- C12 (what the code does). The desired list holds p1 at revision 0 and the
cluster stores p1, fetched at revision 7; the builder's `Update` computes p1 at
revision 8 from the fetched object.  `applyNetPolicies` calls `Update` on the
fetched object and then submits, in the update call, the desired p1 at
revision 0, not the object `Update` computed. -/
theorem applyNetPolicies_update_carries_desired_object :
    ((bumpNetPol "ns1" ["p1"]).Update ("p1", 7) ["p1"]).1 = Except.ok ("p1", 8)
    ∧ (applyNetPolicies fakeIsNotFound Prod.fst revisionKube (bumpNetPol "ns1" ["p1"])
        (World.mk ["p1"] [])).2.trace
      = [Event.builderCreate,
         Event.get Resource.networkPolicies "ns1" "p1" none,
         Event.metric "networking-policies-get" none true,
         Event.builderUpdate ("p1", 7),
         Event.update Resource.networkPolicies "ns1" ("p1", 0) none,
         Event.metric "networking-policies-update" none false] := by
  refine ⟨by simp [bumpNetPol], ?_⟩
  simp [applyNetPolicies, npCreate, netPolLoop, netPolBody, kGet, kUpdate, npUpdate,
    revisionKube, bumpNetPol, incCounter, incCounterFiltered, World.log, errOf]

end NetPolUpdateTheorems

end Provider
